import Mathlib

/-!
# Shallow embedding of the Gifyou-signoff review dashboard

This file embeds, in Lean 4, the data model and the operations of the
content-review dashboard found in `src/app/page.tsx` and the API route
handlers under `src/app/api/...`, and proves or refutes the frozen claims
about them.

Conventions of the embedding:
* JavaScript values parsed from JSON are modelled by the inductive `JVal`;
  a missing object property (JS `undefined`) is modelled by a failed lookup
  (`Option.none`), the JSON literal `null` by `JVal.jnull`.
* JSON numbers are modelled as integers (no claim touches fractional
  values).
* Sources of nondeterminism in the source (`Date.now()`,
  `new Date().toISOString()`, `crypto.randomUUID`, `Math.random`) are
  threaded as explicit parameters (`Gen`, explicit id/mock arguments).
* Network requests are modelled by their planned outcomes: `none` for a
  thrown network error, `some r` for a received `HttpResponse`. Client
  operations return the number of request attempts they performed together
  with their result, so single-attempt contracts are statable.
* React state setters are modelled by returning the value passed to the
  setter; a loader that returns without calling a setter yields `none` for
  that collection (state left untouched).
-/

/-- The four canonical review statuses (`AssetStatus` in `src/types`). -/
inductive AssetStatus where
  | TO_REVIEW
  | APPROVED
  | HOLD
  | REJECTED
  deriving DecidableEq, Repr

/-- The skin-tone enum (`SkinTone` in `src/types`): six tones plus `ALL`. -/
inductive SkinTone where
  | FAIR
  | LIGHT
  | OLIVE
  | MEDIUM_BROWN
  | DARK_BROWN
  | DEEP
  | ALL
  deriving DecidableEq, Repr

/-- Canonical string spelling of an `AssetStatus`, as interpolated by JS. -/
def AssetStatus.str : AssetStatus → String
  | .TO_REVIEW => "TO_REVIEW"
  | .APPROVED => "APPROVED"
  | .HOLD => "HOLD"
  | .REJECTED => "REJECTED"

/-- Canonical string spelling of a `SkinTone`, as interpolated by JS. -/
def SkinTone.str : SkinTone → String
  | .FAIR => "FAIR"
  | .LIGHT => "LIGHT"
  | .OLIVE => "OLIVE"
  | .MEDIUM_BROWN => "MEDIUM_BROWN"
  | .DARK_BROWN => "DARK_BROWN"
  | .DEEP => "DEEP"
  | .ALL => "ALL"

/-- Untyped JSON value, the input type of the normalizers (`unknown` in the
source). Object properties are an association list in insertion order. -/
inductive JVal where
  | jnull
  | jbool (b : Bool)
  | jnum (n : Int)
  | jstr (s : String)
  | jarr (xs : List JVal)
  | jobj (fields : List (String × JVal))

/-- Property access `o[k]` on a parsed JSON value: `none` models JS
`undefined` (missing property, or access on a non-object). -/
def JVal.get? : JVal → String → Option JVal
  | .jobj fields, k => fields.lookup k
  | _, _ => none

/-- Nullish property access: `none` when the property is missing *or* is
the JSON literal `null` — this is what the JS `??` chains skip over. -/
def JVal.getNN : JVal → String → Option JVal
  | v, k => match v.get? k with
    | some .jnull => none
    | some w => some w
    | none => none

/-- `typeof o[k] === 'string' ? o[k] : undefined`. -/
def JVal.getStr : JVal → String → Option String
  | v, k => match v.get? k with
    | some (.jstr s) => some s
    | _ => none

/-- `typeof o[k] === 'number' ? o[k] : undefined`. -/
def JVal.getNum : JVal → String → Option Int
  | v, k => match v.get? k with
    | some (.jnum n) => some n
    | _ => none

/-- The canonical in-memory asset record (`UiAsset` in `src/app/page.tsx`). -/
structure UiAsset where
  id : String
  title : String
  eventId : String
  skinTone : SkinTone
  status : AssetStatus
  uploader : String
  reviewer : Option String
  createdAt : String
  updatedAt : Option String
  version : Int
  notesRefinement : String
  notesIdeas : String
  previewColor : String
  mediaUrl : Option String
  mediaType : Option String
  mediaStorage : Option String
  fileName : Option String
  fileSize : Option Int
  deriving DecidableEq, Repr

/-- The canonical in-memory text item (`TextItem` in `src/app/page.tsx`). -/
structure TextItem where
  id : String
  title : String
  body : String
  category : String
  status : AssetStatus
  author : String
  reviewer : Option String
  createdAt : String
  updatedAt : Option String
  tags : List String
  reviewNotes : String
  groupId : Option String
  sectionId : Option String
  deriving DecidableEq, Repr

/-- `TextGroup` record. -/
structure TextGroup where
  id : String
  name : String
  description : String
  eventId : Option String
  createdAt : String
  updatedAt : Option String
  deriving DecidableEq, Repr

/-- `TextSection` record. -/
structure TextSection where
  id : String
  groupId : String
  name : String
  description : String
  createdAt : String
  updatedAt : Option String
  deriving DecidableEq, Repr

/-- `EventRecord`. -/
structure EventRecord where
  id : String
  name : String
  startDate : String
  endDate : Option String
  totalTarget : Int
  perToneTarget : Int
  tier : Int
  description : Option String
  deriving DecidableEq, Repr

/-- Activity-log actions. -/
inductive ActivityAction where
  | CREATED
  | STATUS_CHANGED
  | COMMENT
  deriving DecidableEq, Repr

/-- Activity-log subject kind. -/
inductive ActivitySubject where
  | asset
  | text
  deriving DecidableEq, Repr

/-- `ActivityEntry` record. -/
structure ActivityEntry where
  id : String
  subjectType : ActivitySubject
  subjectId : String
  action : ActivityAction
  actor : String
  timestamp : String
  fromStatus : Option AssetStatus
  toStatus : Option AssetStatus
  comment : String
  deriving DecidableEq, Repr

/-- `LEGACY_STATUS_MAP` (page.tsx lines 148-157). -/
def LEGACY_STATUS_MAP : List (String × AssetStatus) :=
  [("To Review", .TO_REVIEW),
   ("Approved", .APPROVED),
   ("Hold", .HOLD),
   ("Rejected", .REJECTED),
   ("TO_REVIEW", .TO_REVIEW),
   ("APPROVED", .APPROVED),
   ("HOLD", .HOLD),
   ("REJECTED", .REJECTED)]

/-- `LEGACY_TONE_MAP` (page.tsx lines 159-177). -/
def LEGACY_TONE_MAP : List (String × SkinTone) :=
  [("fair", .FAIR),
   ("light", .LIGHT),
   ("olive", .OLIVE),
   ("medium-brown", .MEDIUM_BROWN),
   ("dark-brown", .DARK_BROWN),
   ("deep", .DEEP),
   ("all", .ALL),
   ("all-tones", .ALL),
   ("neutral", .ALL),
   ("tone-neutral", .ALL),
   ("FAIR", .FAIR),
   ("LIGHT", .LIGHT),
   ("OLIVE", .OLIVE),
   ("MEDIUM_BROWN", .MEDIUM_BROWN),
   ("DARK_BROWN", .DARK_BROWN),
   ("DEEP", .DEEP),
   ("ALL", .ALL)]

/-- `normalizeStatus`: non-strings map to null, strings go through the
legacy table. The argument is the (possibly missing) property value. -/
def normalizeStatus : Option JVal → Option AssetStatus
  | some (.jstr s) => LEGACY_STATUS_MAP.lookup s
  | _ => none

/-- `normalizeTone`. -/
def normalizeTone : Option JVal → Option SkinTone
  | some (.jstr s) => LEGACY_TONE_MAP.lookup s
  | _ => none

/-- `ASSET_STATUSES` (page.tsx line 146). -/
def ASSET_STATUSES : List AssetStatus :=
  [.TO_REVIEW, .APPROVED, .HOLD, .REJECTED]

/-- An entry of `SKIN_TONES` (`src/lib/constants.ts`). -/
structure SkinToneInfo where
  id : SkinTone
  name : String
  color : String
  deriving DecidableEq, Repr

/-- `SKIN_TONES` (`src/lib/constants.ts`): the six concrete tones. -/
def SKIN_TONES : List SkinToneInfo :=
  [⟨.FAIR, "Fair", "#FFDFC4"⟩,
   ⟨.LIGHT, "Light", "#F0D5BE"⟩,
   ⟨.OLIVE, "Olive", "#D1A38F"⟩,
   ⟨.MEDIUM_BROWN, "Medium Brown", "#A1665E"⟩,
   ⟨.DARK_BROWN, "Dark Brown", "#6A4B3C"⟩,
   ⟨.DEEP, "Deep", "#3B2A1A"⟩]

/-- The clock/identity environment threaded in place of `Date.now()` and
`new Date().toISOString()`: `nowIso` is the ISO timestamp, `nowMs` is the
decimal string JS interpolates for `Date.now()`. -/
structure Gen where
  nowIso : String
  nowMs : String
  deriving DecidableEq, Repr

/-- `data.k1 ?? data.k2`: first non-nullish of two properties. -/
def JVal.nn2 (v : JVal) (k1 k2 : String) : Option JVal :=
  match v.getNN k1 with
  | some x => some x
  | none => v.getNN k2

/-- Resolve a string field by camelCase key, then snake_case key
(`typeof data.a === 'string' ? data.a : typeof data.b === 'string' ? data.b
: <default>` — the default is supplied by the caller). -/
def JVal.getStr2 (v : JVal) (k1 k2 : String) : Option String :=
  match v.getStr k1 with
  | some s => some s
  | none => v.getStr k2

/-- Resolve a numeric field by camelCase key, then snake_case key. -/
def JVal.getNum2 (v : JVal) (k1 k2 : String) : Option Int :=
  match v.getNum k1 with
  | some n => some n
  | none => v.getNum k2

/-- `!raw || typeof raw !== 'object'` fails exactly on JS objects and
arrays (JS `typeof [] === 'object'`; `null` is excluded by `!raw`).
Property lookups on arrays always miss, so array elements are dropped by
the subsequent required-field checks, as in the source. -/
def JVal.isObjectLike : JVal → Bool
  | .jobj _ => true
  | .jarr _ => true
  | _ => false

mutual

/-- JS `String(x)` on JSON-representable values: primitives print their
JS spellings, objects print `[object Object]`, arrays join their elements
with commas (null elements contribute an empty string). -/
def jsString : JVal → String
  | .jnull => "null"
  | .jbool b => cond b "true" "false"
  | .jnum n => toString n
  | .jstr s => s
  | .jobj _ => "[object Object]"
  | .jarr xs => String.intercalate "," (jsStringList xs)

/-- Elementwise `String()` for array joining: `null` elements become `""`. -/
def jsStringList : List JVal → List String
  | [] => []
  | .jnull :: rest => "" :: jsStringList rest
  | v :: rest => jsString v :: jsStringList rest

end

/-- Digit-prefix value of a character list, `none` when it starts with a
non-digit. -/
def parseDigits (cs : List Char) : Option Nat :=
  let ds := cs.takeWhile Char.isDigit
  if ds.isEmpty then none
  else some (ds.foldl (fun acc c => acc * 10 + (c.toNat - 48)) 0)

/-- JS `Number.parseInt(s, 10)`: skip leading whitespace, optional sign,
then the longest decimal-digit prefix; `none` models `NaN` (which fails
the subsequent `Number.isFinite` check in the source). -/
def parseIntJS (s : String) : Option Int :=
  let cs := s.toList.dropWhile (fun c => c = ' ' || c = '\t' || c = '\n' || c = '\r')
  match cs with
  | '-' :: rest => (parseDigits rest).map (fun n => -(n : Int))
  | '+' :: rest => (parseDigits rest).map (fun n => (n : Int))
  | _ => (parseDigits cs).map (fun n => (n : Int))

/-- JS whitespace test for `trim` (the whitespace classes that occur in
this data). -/
def jsWhitespace (c : Char) : Bool :=
  c = ' ' || c = '\t' || c = '\n' || c = '\r'

/-- JS `s.trim()`, implemented over the character list so that concrete
inputs evaluate by kernel reduction. -/
def jsTrim (s : String) : String :=
  String.mk (((s.toList.dropWhile jsWhitespace).reverse.dropWhile jsWhitespace).reverse)

/-- Character-list splitter with JS semantics: empty segments are kept
and an empty input yields one empty segment. -/
def splitChars (sep : Char) : List Char → List (List Char)
  | [] => [[]]
  | c :: rest =>
    let r := splitChars sep rest
    if c = sep then [] :: r
    else
      match r with
      | [] => [[c]]
      | seg :: segs => (c :: seg) :: segs

/-- JS `s.split(sep)` for a one-character separator. -/
def jsSplitOnChar (sep : Char) (s : String) : List String :=
  (splitChars sep s.toList).map String.mk

/-- JS `s.slice(0, n)`. -/
def jsTake (n : Nat) (s : String) : String :=
  String.mk (s.toList.take n)

/-- JS `s.toLowerCase()` (ASCII, which covers this data). -/
def jsToLower (s : String) : String :=
  String.mk (s.toList.map Char.toLower)

/-- JS `s.startsWith(pre)`. -/
def jsStartsWith (s pre : String) : Bool :=
  go pre.toList s.toList
where
  go : List Char → List Char → Bool
    | [], _ => true
    | _ :: _, [] => false
    | a :: as2, b :: bs => a = b && go as2 bs


/-- Per-element body of `normalizeStoredAssets` (page.tsx lines 193-300):
returns `none` for the discarded elements. -/
def normalizeAssetElem (g : Gen) (raw : JVal) : Option UiAsset :=
  if !raw.isObjectLike then none else
  let data := raw
  let status? := normalizeStatus (data.get? "status")
  let skinTone? := normalizeTone (data.nn2 "skinTone" "skin_tone")
  let eventId := (data.getStr2 "eventId" "event_id").getD ""
  match status?, skinTone? with
  | some status, some skinTone =>
    if eventId = "" then none else
    let title :=
      match data.getStr "title" with
      | some t => if ((jsTrim t).length > 0 : Bool) then jsTrim t else "Untitled Asset"
      | none => "Untitled Asset"
    let createdAt := (data.getStr2 "createdAt" "created_at").getD g.nowIso
    let updatedAt := data.getStr2 "updatedAt" "updated_at"
    let previewColor :=
      (data.getStr2 "previewColor" "preview_color").getD
        (if skinTone = .ALL then "#94a3b8"
         else ((SKIN_TONES.find? (fun t => t.id = skinTone)).map (·.color)).getD "#ccc")
    let rawMediaUrl := data.getStr2 "mediaUrl" "media_url"
    let mediaType := data.getStr2 "mediaType" "media_type"
    let rawMediaStorage := data.getStr2 "mediaStorage" "media_storage"
    let mediaStorage :=
      if rawMediaStorage = some "inline" || rawMediaStorage = some "object" then rawMediaStorage
      else if (rawMediaUrl.map (fun u => jsStartsWith u "data:")).getD false then some "inline"
      else none
    let mediaUrl :=
      if mediaStorage = some "object" && (rawMediaUrl.map (fun u => jsStartsWith u "blob:")).getD false
      then none else rawMediaUrl
    let fileName := data.getStr2 "fileName" "file_name"
    let fileSize := data.getNum2 "fileSize" "file_size"
    let notesRefinement := (data.getStr2 "notesRefinement" "notes_refinement").getD ""
    let notesIdeas := (data.getStr2 "notesIdeas" "notes_ideas").getD ""
    let uploader := (data.getStr "uploader").getD "Creator Team"
    let reviewer := data.getStr "reviewer"
    let version := (data.getNum "version").getD 1
    some
      { id := (data.getStr "id").getD
          ("asset-" ++ eventId ++ "-" ++ skinTone.str ++ "-" ++ g.nowMs)
        title := title
        eventId := eventId
        skinTone := skinTone
        status := status
        uploader := uploader
        reviewer := reviewer
        createdAt := createdAt
        updatedAt := updatedAt
        version := version
        notesRefinement := notesRefinement
        notesIdeas := notesIdeas
        previewColor := previewColor
        mediaUrl := mediaUrl
        mediaType := mediaType
        mediaStorage := mediaStorage
        fileName := fileName
        fileSize := fileSize }
  | _, _ => none

/-- `normalizeStoredAssets` (page.tsx lines 189-302): non-arrays yield
`[]`; array elements are normalized in order and the discarded ones
filtered out (`.map(...).filter(Boolean)`). -/
def normalizeStoredAssets (g : Gen) (input : JVal) : List UiAsset :=
  match input with
  | .jarr xs => (xs.map (normalizeAssetElem g)).reduceOption
  | _ => []

/-- Per-element body of `normalizeStoredTextItems` (page.tsx 308-376). -/
def normalizeTextItemElem (g : Gen) (raw : JVal) : Option TextItem :=
  if !raw.isObjectLike then none else
  let data := raw
  match normalizeStatus (data.get? "status") with
  | none => none
  | some status =>
    let rawTitle := ((data.getStr "title").map jsTrim).getD ""
    let rawBody := (data.getStr2 "body" "content").getD ""
    if rawTitle = "" && rawBody = "" then none else
    let category :=
      match data.getStr "category" with
      | some c => if ((jsTrim c).length > 0 : Bool) then jsTrim c else "Idea"
      | none => "Idea"
    let tags :=
      match data.get? "tags" with
      | some (.jarr xs) => xs.filterMap (fun v => match v with | .jstr s => some s | _ => none)
      | some (.jstr s) => ((jsSplitOnChar ',' s).map jsTrim).filter (· ≠ "")
      | _ => []
    let createdAt := (data.getStr2 "createdAt" "created_at").getD g.nowIso
    let updatedAt := data.getStr2 "updatedAt" "updated_at"
    let author := (data.getStr "author").getD "Creator Team"
    let reviewer := data.getStr "reviewer"
    let reviewNotes := (data.getStr2 "reviewNotes" "review_notes").getD ""
    let groupId := data.getStr2 "groupId" "group_id"
    let sectionId := data.getStr2 "sectionId" "section_id"
    let title :=
      if rawTitle ≠ "" then rawTitle
      else
        let firstLine := jsTrim (jsTake 60 ((jsSplitOnChar '\n' rawBody).headD ""))
        if firstLine ≠ "" then firstLine else "Untitled idea"
    some
      { id := (data.getStr "id").getD ("text-" ++ g.nowMs)
        title := title
        body := rawBody
        category := category
        status := status
        author := author
        reviewer := reviewer
        createdAt := createdAt
        updatedAt := updatedAt
        tags := tags
        reviewNotes := reviewNotes
        groupId := groupId
        sectionId := sectionId }

/-- `normalizeStoredTextItems` (page.tsx lines 304-378). -/
def normalizeStoredTextItems (g : Gen) (input : JVal) : List TextItem :=
  match input with
  | .jarr xs => (xs.map (normalizeTextItemElem g)).reduceOption
  | _ => []

/-- Per-element body of `normalizeStoredTextGroups` (page.tsx 383-415). -/
def normalizeTextGroupElem (g : Gen) (raw : JVal) : Option TextGroup :=
  if !raw.isObjectLike then none else
  let data := raw
  let rawName := ((data.getStr "name").map jsTrim).getD ""
  if rawName = "" then none else
  some
    { id := (data.getStr "id").getD ("group-" ++ g.nowMs)
      name := rawName
      description := (data.getStr "description").getD ""
      eventId := data.getStr2 "eventId" "event_id"
      createdAt := (data.getStr2 "createdAt" "created_at").getD g.nowIso
      updatedAt := data.getStr2 "updatedAt" "updated_at" }

/-- `normalizeStoredTextGroups` (page.tsx lines 380-417). -/
def normalizeStoredTextGroups (g : Gen) (input : JVal) : List TextGroup :=
  match input with
  | .jarr xs => (xs.map (normalizeTextGroupElem g)).reduceOption
  | _ => []

/-- Per-element body of `normalizeStoredTextSections` (page.tsx 422-454). -/
def normalizeTextSectionElem (g : Gen) (raw : JVal) : Option TextSection :=
  if !raw.isObjectLike then none else
  let data := raw
  let name := ((data.getStr "name").map jsTrim).getD ""
  let groupId := (data.getStr2 "groupId" "group_id").getD ""
  if name = "" || groupId = "" then none else
  some
    { id := (data.getStr "id").getD ("section-" ++ g.nowMs)
      groupId := groupId
      name := name
      description := (data.getStr "description").getD ""
      createdAt := (data.getStr2 "createdAt" "created_at").getD g.nowIso
      updatedAt := data.getStr2 "updatedAt" "updated_at" }

/-- `normalizeStoredTextSections` (page.tsx lines 419-456). -/
def normalizeStoredTextSections (g : Gen) (input : JVal) : List TextSection :=
  match input with
  | .jarr xs => (xs.map (normalizeTextSectionElem g)).reduceOption
  | _ => []

/-- Per-element body of `normalizeStoredEvents` (page.tsx 462-492); the
index is used for the generated id `event-${Date.now()}-${index}`. -/
def normalizeEventElem (g : Gen) (index : Nat) (raw : JVal) : Option EventRecord :=
  if !raw.isObjectLike then none else
  let data := raw
  let name := ((data.getStr "name").map jsTrim).getD ""
  let startDate := (data.getStr2 "startDate" "start_date").getD ""
  if name = "" || startDate = "" then none else
  let totalTarget? := parseIntJS (jsString (((data.nn2 "totalTarget" "total_target").getD (.jstr ""))))
  let perToneTarget? := parseIntJS (jsString (((data.nn2 "perToneTarget" "per_tone_target").getD (.jnum 0))))
  let tier? := parseIntJS (jsString (((data.getNN "tier").getD (.jstr ""))))
  match totalTarget?, tier? with
  | some totalTarget, some tier =>
    some
      { id := (data.getStr "id").getD ("event-" ++ g.nowMs ++ "-" ++ toString index)
        name := name
        startDate := startDate
        endDate := data.getStr2 "endDate" "end_date"
        totalTarget := totalTarget
        perToneTarget := perToneTarget?.getD 0
        tier := tier
        description := data.getStr "description" }
  | _, _ => none

/-- `normalizeStoredEvents` (page.tsx lines 458-494). -/
def normalizeStoredEvents (g : Gen) (input : JVal) : List EventRecord :=
  match input with
  | .jarr xs => ((xs.enum.map (fun p => normalizeEventElem g p.1 p.2))).reduceOption
  | _ => []

/-- Per-element body of `normalizeStoredActivity` (page.tsx 560-602). -/
def normalizeActivityElem (g : Gen) (raw : JVal) : Option ActivityEntry :=
  if !raw.isObjectLike then none else
  let data := raw
  let rawSubjectType := (data.getStr2 "subjectType" "subject_type").getD ""
  let subjectType? : Option ActivitySubject :=
    if rawSubjectType = "asset" then some .asset
    else if rawSubjectType = "text" then some .text
    else none
  let action? : Option ActivityAction :=
    match data.get? "action" with
    | some (.jstr "CREATED") => some .CREATED
    | some (.jstr "STATUS_CHANGED") => some .STATUS_CHANGED
    | some (.jstr "COMMENT") => some .COMMENT
    | _ => none
  match subjectType?, action? with
  | some subjectType, some action =>
    let subjectId := (data.getStr2 "subjectId" "subject_id").getD ""
    let actor := (data.getStr "actor").getD ""
    let timestamp := (data.getStr2 "timestamp" "created_at").getD ""
    if subjectId = "" || actor = "" || timestamp = "" then none else
    some
      { id := (data.getStr "id").getD ("activity-" ++ g.nowMs)
        subjectType := subjectType
        subjectId := subjectId
        action := action
        actor := actor
        timestamp := timestamp
        fromStatus := normalizeStatus (data.nn2 "fromStatus" "from_status")
        toStatus := normalizeStatus (data.nn2 "toStatus" "to_status")
        comment := (data.getStr "comment").getD "" }
  | _, _ => none

/-- `normalizeStoredActivity` (page.tsx lines 556-604). -/
def normalizeStoredActivity (g : Gen) (input : JVal) : List ActivityEntry :=
  match input with
  | .jarr xs => (xs.map (normalizeActivityElem g)).reduceOption
  | _ => []

/-- An HTTP response as seen by the client: `status`, and the parsed JSON
body (`none` when `response.json()` would throw). -/
structure HttpResponse where
  status : Nat
  body : Option JVal

/-- `response.ok`: status in the inclusive range 200-299. -/
def respOk (r : HttpResponse) : Bool :=
  200 ≤ r.status && r.status ≤ 299

/-- Planned outcome of one `fetch` call: `none` models a thrown network
error, `some r` a received response. -/
abbrev NetOutcome := Option HttpResponse

/-- `payload.k ?? payload` — the wrapped record array, or the payload
itself when the wrapper field is absent. -/
def payloadOr (body : JVal) (k : String) : JVal :=
  (body.getNN k).getD body

/-- `fetchAssetsFromApi` (page.tsx 708-722): one GET; `null` on a thrown
error or a non-2xx status, otherwise the normalized wrapped array. The
second component counts request attempts performed. -/
def fetchAssetsFromApi (g : Gen) (o : NetOutcome) : Option (List UiAsset) × Nat :=
  (match o with
   | none => none
   | some r =>
     if respOk r then
       match r.body with
       | none => none
       | some payload => some (normalizeStoredAssets g (payloadOr payload "assets"))
     else none, 1)

/-- `saveAssetsToApi` (page.tsx 724-742): one POST, `false` on a thrown
error, otherwise `response.ok`. -/
def saveAssetsToApi (_assets : List UiAsset) (o : NetOutcome) : Bool × Nat :=
  (match o with
   | none => false
   | some r => respOk r, 1)

/-- `deleteAssetFromApi` (page.tsx 744-759). -/
def deleteAssetFromApi (_assetId : String) (o : NetOutcome) : Bool × Nat :=
  (match o with
   | none => false
   | some r => respOk r, 1)

/-- `fetchEventsFromApi` (page.tsx 761-775). -/
def fetchEventsFromApi (g : Gen) (o : NetOutcome) : Option (List EventRecord) × Nat :=
  (match o with
   | none => none
   | some r =>
     if respOk r then
       match r.body with
       | none => none
       | some payload => some (normalizeStoredEvents g (payloadOr payload "events"))
     else none, 1)

/-- `saveEventsToApi` (page.tsx 777-795). -/
def saveEventsToApi (_events : List EventRecord) (o : NetOutcome) : Bool × Nat :=
  (match o with
   | none => false
   | some r => respOk r, 1)

/-- `fetchTextGroupsFromApi` (page.tsx 797-811). -/
def fetchTextGroupsFromApi (g : Gen) (o : NetOutcome) : Option (List TextGroup) × Nat :=
  (match o with
   | none => none
   | some r =>
     if respOk r then
       match r.body with
       | none => none
       | some payload => some (normalizeStoredTextGroups g (payloadOr payload "groups"))
     else none, 1)

/-- `saveTextGroupsToApi` (page.tsx 813-831). -/
def saveTextGroupsToApi (_groups : List TextGroup) (o : NetOutcome) : Bool × Nat :=
  (match o with
   | none => false
   | some r => respOk r, 1)

/-- `deleteTextGroupFromApi` (page.tsx 833-848). -/
def deleteTextGroupFromApi (_groupId : String) (o : NetOutcome) : Bool × Nat :=
  (match o with
   | none => false
   | some r => respOk r, 1)

/-- `fetchTextSectionsFromApi` (page.tsx 850-864). -/
def fetchTextSectionsFromApi (g : Gen) (o : NetOutcome) : Option (List TextSection) × Nat :=
  (match o with
   | none => none
   | some r =>
     if respOk r then
       match r.body with
       | none => none
       | some payload => some (normalizeStoredTextSections g (payloadOr payload "sections"))
     else none, 1)

/-- `saveTextSectionsToApi` (page.tsx 866-884). -/
def saveTextSectionsToApi (_sections : List TextSection) (o : NetOutcome) : Bool × Nat :=
  (match o with
   | none => false
   | some r => respOk r, 1)

/-- `deleteTextSectionFromApi` (page.tsx 886-901). -/
def deleteTextSectionFromApi (_sectionId : String) (o : NetOutcome) : Bool × Nat :=
  (match o with
   | none => false
   | some r => respOk r, 1)

/-- `fetchTextItemsFromApi` (page.tsx 903-917). -/
def fetchTextItemsFromApi (g : Gen) (o : NetOutcome) : Option (List TextItem) × Nat :=
  (match o with
   | none => none
   | some r =>
     if respOk r then
       match r.body with
       | none => none
       | some payload => some (normalizeStoredTextItems g (payloadOr payload "items"))
     else none, 1)

/-- `saveTextItemsToApi` (page.tsx 919-948). Unlike every other client
operation, this one retries: when the first response has status 401 it
refreshes the session (`refreshedToken` is the token obtained from
`supabase.auth.refreshSession()` / `getAuthToken`) and issues a second
POST. A thrown network error on either attempt is caught and yields
`false`. The second component counts request attempts performed. -/
def saveTextItemsToApi (_items : List TextItem) (_token _refreshedToken : String)
    (o1 o2 : NetOutcome) : Bool × Nat :=
  match o1 with
  | none => (false, 1)
  | some r1 =>
    if r1.status = 401 then
      match o2 with
      | none => (false, 2)
      | some r2 => (respOk r2, 2)
    else (respOk r1, 1)

/-- `deleteTextItemFromApi` (page.tsx 957-972). -/
def deleteTextItemFromApi (_itemId : String) (o : NetOutcome) : Bool × Nat :=
  (match o with
   | none => false
   | some r => respOk r, 1)

/-- `fetchActivityFromApi` (page.tsx 974-988). -/
def fetchActivityFromApi (g : Gen) (o : NetOutcome) : Option (List ActivityEntry) × Nat :=
  (match o with
   | none => none
   | some r =>
     if respOk r then
       match r.body with
       | none => none
       | some payload => some (normalizeStoredActivity g (payloadOr payload "activity"))
     else none, 1)

/-- `saveActivityEntriesToApi` (page.tsx 990-1008). -/
def saveActivityEntriesToApi (_activity : List ActivityEntry) (o : NetOutcome) : Bool × Nat :=
  (match o with
   | none => false
   | some r => respOk r, 1)

/-- An entry of `INITIAL_EVENTS` (`src/lib/constants.ts`). The `id` is
optional only because `buildSeedEvents` guards `typeof event.id ===
'string'`; every entry of the constant supplies one. -/
structure SeedEvent where
  id : Option String
  name : String
  startDate : String
  totalTarget : Int
  perToneTarget : Int
  tier : Int
  deriving DecidableEq, Repr

/-- `INITIAL_EVENTS` (`src/lib/constants.ts`). -/
def INITIAL_EVENTS : List SeedEvent :=
  [⟨some "christmas", "Christmas", "2026-12-25", 200, 34, 1⟩,
   ⟨some "new-year", "New Year", "2026-01-01", 180, 30, 1⟩,
   ⟨some "halloween", "Halloween", "2026-10-31", 170, 29, 1⟩,
   ⟨some "valentines", "Valentine's Day", "2026-02-14", 160, 27, 1⟩,
   ⟨some "thanksgiving", "Thanksgiving", "2026-11-26", 150, 25, 1⟩,
   ⟨some "summer", "Summer Holiday", "2026-07-04", 130, 22, 2⟩,
   ⟨some "mothers-day", "Mother's Day", "2026-05-10", 120, 20, 2⟩,
   ⟨some "fathers-day", "Father's Day", "2026-06-21", 120, 20, 2⟩,
   ⟨some "easter", "Easter", "2026-04-05", 110, 19, 2⟩,
   ⟨some "diwali", "Diwali", "2026-11-08", 110, 19, 2⟩,
   ⟨some "graduation", "Graduation Season", "2026-05-15", 110, 19, 2⟩,
   ⟨some "back-to-school", "Back to School", "2026-08-15", 100, 17, 2⟩,
   ⟨some "bhm", "Black History Month", "2026-02-01", 90, 15, 3⟩,
   ⟨some "lunar-new-year", "Lunar New Year", "2026-02-17", 85, 15, 3⟩,
   ⟨some "ramadan", "Ramadan", "2026-02-18", 80, 14, 3⟩,
   ⟨some "eid-fitr", "Eid al Fitr", "2026-03-20", 80, 14, 3⟩,
   ⟨some "hanukkah", "Hanukkah", "2026-12-04", 75, 13, 3⟩,
   ⟨some "hispanic-heritage", "Hispanic Heritage Month", "2026-09-15", 75, 13, 3⟩,
   ⟨some "aapi-heritage", "AAPI Heritage Month", "2026-05-01", 70, 12, 3⟩,
   ⟨some "womens-day", "International Women's Day", "2026-03-08", 70, 12, 3⟩,
   ⟨some "juneteenth", "Juneteenth", "2026-06-19", 65, 11, 3⟩,
   ⟨some "kwanzaa", "Kwanzaa", "2026-12-26", 65, 11, 3⟩,
   ⟨some "july4", "Independence Day USA", "2026-07-04", 55, 10, 4⟩,
   ⟨some "st-patrick", "St. Patrick's Day", "2026-03-17", 50, 9, 4⟩,
   ⟨some "carnival", "Carnival", "2026-02-14", 50, 9, 4⟩,
   ⟨some "notting-hill", "Notting Hill Carnival", "2026-08-30", 50, 9, 4⟩,
   ⟨some "caribbean-heritage", "Caribbean Heritage Month", "2026-06-01", 45, 8, 4⟩,
   ⟨some "india-independence", "Indian Independence Day", "2026-08-15", 45, 8, 4⟩,
   ⟨some "black-friday", "Black Friday", "2026-11-27", 45, 8, 4⟩,
   ⟨some "rosh-hashanah", "Rosh Hashanah/YK", "2026-09-12", 40, 7, 4⟩,
   ⟨some "earth-day", "Earth Day", "2026-04-22", 40, 7, 4⟩,
   ⟨some "emancipation", "Emancipation Day", "2026-04-16", 40, 7, 4⟩,
   ⟨some "bhm-uk", "Black History Month UK", "2026-10-01", 40, 7, 4⟩]

/-- Collapse every maximal run of non-`[a-z0-9]` characters into a single
hyphen (`.replace(/[^a-z0-9]+/g, '-')`, applied after `toLowerCase`). -/
def slugCollapse : List Char → List Char
  | [] => []
  | c :: rest =>
    if c.isDigit || (c.isLower && c.isAlpha) then c :: slugCollapse rest
    else '-' :: slugCollapse (rest.dropWhile (fun d => !(d.isDigit || (d.isLower && d.isAlpha))))
termination_by cs => cs.length
decreasing_by
  · simp_wf
  · simp_wf
    have h := (List.dropWhile_sublist
      (l := rest) (fun d => !d.isDigit && (!d.isLower || !d.isAlpha))).length_le
    omega

/-- `.replace(/(^-|-$)/g, '')`: strip a single leading and a single
trailing hyphen. -/
def stripEdgeDashes (s : String) : String :=
  let cs := s.toList
  let cs := match cs with
    | '-' :: rest => rest
    | other => other
  let cs := if cs.getLast? = some '-' then cs.dropLast else cs
  String.mk cs

/-- `buildSeedEventId` (page.tsx 1046-1053). -/
def buildSeedEventId (name startDate : String) (index : Nat) : String :=
  let slug := stripEdgeDashes (String.mk (slugCollapse ((jsToLower name).toList)))
  let date := (jsSplitOnChar 'T' startDate).headD startDate
  "seed-" ++ slug ++ "-" ++ date ++ "-" ++ toString index

/-- `buildSeedEvents` (page.tsx 1055-1066): the deterministic remote seed
set derived from `INITIAL_EVENTS`. -/
def buildSeedEvents : List EventRecord :=
  INITIAL_EVENTS.enum.map (fun p =>
    { id := p.2.id.getD (buildSeedEventId p.2.name p.2.startDate p.1)
      name := p.2.name
      startDate := p.2.startDate
      endDate := none
      totalTarget := p.2.totalTarget
      perToneTarget := p.2.perToneTarget
      tier := p.2.tier
      description := none })

/-- `INITIAL_EVENTS` viewed as `EventRecord`s, as stored by the
cache-miss default path of `loadEventData` (`setEvents(INITIAL_EVENTS)`;
the absent optional fields read back as `undefined`/`null`). -/
def initialEventRecords : List EventRecord :=
  INITIAL_EVENTS.enum.map (fun p =>
    { id := p.2.id.getD (buildSeedEventId p.2.name p.2.startDate p.1)
      name := p.2.name
      startDate := p.2.startDate
      endDate := none
      totalTarget := p.2.totalTarget
      perToneTarget := p.2.perToneTarget
      tier := p.2.tier
      description := none })

/-- Result of reading a localStorage key then `JSON.parse`-ing it:
`none` = key absent or `getItem` threw; `some none` = present but
`JSON.parse` threw; `some (some v)` = parsed value `v`. -/
abbrev CacheRead := Option (Option JVal)

/-- Environment of the assets loader `loadData` (page.tsx 1673-1766):
auth state, the planned outcome of the remote fetch, the raw cached
value, and the output of the (randomized) `generateMockAssets`. -/
structure AssetsLoadEnv where
  devUser : Bool
  authToken : String
  net : NetOutcome
  cache : CacheRead
  mockAssets : List UiAsset

/-- Observable effects of one `loadData` run (assuming the component stays
mounted): the value passed to `setAssets` (`none` = never called), the
sync-error message, the seed written to the cache key, and whether the
localStorage key was read. -/
structure AssetsLoadResult where
  assets : Option (List UiAsset)
  syncError : String
  cacheWritten : Option (List UiAsset)
  usedCache : Bool
  deriving DecidableEq, Repr

/-- The shared normalize-or-seed cache path of `loadData` (used by both
the dev-identity branch and the remote-unreachable fallthrough). -/
def assetsCacheOrSeed (g : Gen) (env : AssetsLoadEnv) (syncError : String) : AssetsLoadResult :=
  let normalized? :=
    match env.cache with
    | some (some v) =>
      let n := normalizeStoredAssets g v
      if n.length > 0 then some n else none
    | _ => none
  match normalized? with
  | some n =>
    { assets := some n, syncError := syncError, cacheWritten := none, usedCache := true }
  | none =>
    { assets := some env.mockAssets, syncError := syncError
      cacheWritten := some env.mockAssets, usedCache := true }

/-- `loadData` (page.tsx 1673-1766), the assets sync orchestrator:
dev identity reads cache (seeding on miss); an authenticated session
fetches remote and adopts any non-null result, sets the sync-error
message and falls through to the cache path on a null result; a missing
token clears the collection. -/
def loadData (g : Gen) (env : AssetsLoadEnv) : AssetsLoadResult :=
  if env.devUser then assetsCacheOrSeed g env ""
  else if env.authToken ≠ "" then
    match (fetchAssetsFromApi g env.net).1 with
    | some remoteAssets =>
      { assets := some remoteAssets, syncError := "", cacheWritten := none, usedCache := false }
    | none => assetsCacheOrSeed g env "Unable to load team assets. Showing local cache."
  else
    { assets := some [], syncError := "", cacheWritten := none, usedCache := false }

/-- Environment of the events loader `loadEventData` (page.tsx
1552-1649). `saveNet` is the planned outcome of the seed push (its result
is discarded by the source). -/
structure EventsLoadEnv where
  devUser : Bool
  authToken : String
  net : NetOutcome
  saveNet : NetOutcome
  cache : CacheRead

/-- Observable effects of one `loadEventData` run. `remoteSaved` is the
record list passed to `saveEventsToApi` (`none` = no push). -/
structure EventsLoadResult where
  events : Option (List EventRecord)
  remoteSaved : Option (List EventRecord)
  cacheWritten : Option (List EventRecord)
  usedCache : Bool
  deriving DecidableEq, Repr

/-- The cache-or-default path of `loadEventData`: a non-empty normalized
cache is adopted, otherwise `INITIAL_EVENTS` is adopted and written back. -/
def eventsCacheOrDefault (g : Gen) (env : EventsLoadEnv) : EventsLoadResult :=
  let normalized? :=
    match env.cache with
    | some (some v) =>
      let n := normalizeStoredEvents g v
      if n.length > 0 then some n else none
    | _ => none
  match normalized? with
  | some n =>
    { events := some n, remoteSaved := none, cacheWritten := none, usedCache := true }
  | none =>
    { events := some initialEventRecords, remoteSaved := none
      cacheWritten := some initialEventRecords, usedCache := true }

/-- `loadEventData` (page.tsx 1552-1649). The remote branch seeds on an
empty fetch result: it pushes `buildSeedEvents` and adopts that same set;
a non-empty result is adopted directly; a null result falls through to
the cache path (without surfacing any message — events have no
sync-error state). -/
def loadEventData (g : Gen) (env : EventsLoadEnv) : EventsLoadResult :=
  if env.devUser then eventsCacheOrDefault g env
  else if env.authToken ≠ "" then
    match (fetchEventsFromApi g env.net).1 with
    | some remoteEvents =>
      if remoteEvents.length = 0 then
        { events := some buildSeedEvents, remoteSaved := some buildSeedEvents
          cacheWritten := none, usedCache := false }
      else
        { events := some remoteEvents, remoteSaved := none
          cacheWritten := none, usedCache := false }
    | none => eventsCacheOrDefault g env
  else
    { events := some [], remoteSaved := none, cacheWritten := none, usedCache := false }

/-- Environment of the coupled text loader `loadTextData` (page.tsx
1804-1988): three fetch outcomes, three cache reads, and the outputs of
the three mock generators. -/
structure TextLoadEnv where
  devUser : Bool
  authToken : String
  netGroups : NetOutcome
  netSections : NetOutcome
  netItems : NetOutcome
  cacheGroups : CacheRead
  cacheSections : CacheRead
  cacheItems : CacheRead
  mockGroups : List TextGroup
  mockSections : List TextSection
  mockItems : List TextItem

/-- Observable effects of one `loadTextData` run: the values passed to the
three setters (`none` = setter never called, state left untouched), the
sync-error message, and the seeds written to the three cache keys. -/
structure TextLoadResult where
  groups : Option (List TextGroup)
  sections : Option (List TextSection)
  items : Option (List TextItem)
  syncError : String
  cacheWrittenGroups : Option (List TextGroup)
  cacheWrittenSections : Option (List TextSection)
  cacheWrittenItems : Option (List TextItem)
  deriving DecidableEq, Repr

/-- Parse-and-normalize of one cached text collection (`[]` on a missing
key or a parse failure). -/
def readTextCache {α : Type} (normalize : JVal → List α) : CacheRead → List α
  | some (some v) => normalize v
  | _ => []

/-- `loadTextData` (page.tsx 1804-1988). Dev identity: read the three
caches, seed (and write back) each empty collection from the mock
generators. Authenticated: fetch all three; adopt them only when all
three are non-null, otherwise set the sync-error message and return
*without touching any of the three collections*. Signed out: clear all
three. -/
def loadTextData (g : Gen) (env : TextLoadEnv) : TextLoadResult :=
  if env.devUser then
    let groups0 := readTextCache (normalizeStoredTextGroups g) env.cacheGroups
    let sections0 := readTextCache (normalizeStoredTextSections g) env.cacheSections
    let items0 := readTextCache (normalizeStoredTextItems g) env.cacheItems
    let groups := if groups0.length = 0 then env.mockGroups else groups0
    let cwGroups := if groups0.length = 0 then some env.mockGroups else none
    let sections := if sections0.length = 0 then env.mockSections else sections0
    let cwSections := if sections0.length = 0 then some env.mockSections else none
    let items := if items0.length = 0 then env.mockItems else items0
    let cwItems := if items0.length = 0 then some env.mockItems else none
    { groups := some groups, sections := some sections, items := some items
      syncError := ""
      cacheWrittenGroups := cwGroups, cacheWrittenSections := cwSections
      cacheWrittenItems := cwItems }
  else if env.authToken ≠ "" then
    match (fetchTextGroupsFromApi g env.netGroups).1,
        (fetchTextSectionsFromApi g env.netSections).1,
        (fetchTextItemsFromApi g env.netItems).1 with
    | some gs, some ss, some its =>
      { groups := some gs, sections := some ss, items := some its
        syncError := ""
        cacheWrittenGroups := none, cacheWrittenSections := none
        cacheWrittenItems := none }
    | _, _, _ =>
      { groups := none, sections := none, items := none
        syncError := "Unable to load team text items. Please refresh."
        cacheWrittenGroups := none, cacheWrittenSections := none
        cacheWrittenItems := none }
  else
    { groups := some [], sections := some [], items := some []
      syncError := ""
      cacheWrittenGroups := none, cacheWrittenSections := none
      cacheWrittenItems := none }

/-- The browser-scoped Local Cache Store: one slot per collection key
(`gif-you-assets`, `gif-you-events`, `gif-you-texts`,
`gif-you-text-groups`, `gif-you-text-sections`, `gif-you-activity`).
A slot holds the last collection serialized under that key (`none` =
never written). -/
structure LocalCache where
  assetsKey : Option (List UiAsset)
  eventsKey : Option (List EventRecord)
  textKey : Option (List TextItem)
  textGroupsKey : Option (List TextGroup)
  textSectionsKey : Option (List TextSection)
  activityKey : Option (List ActivityEntry)
  deriving DecidableEq, Repr

/-- The assets persistence observer (page.tsx 1768-1774): writes the
serialized collection to `STORAGE_KEY` on *every* change — there is no
non-empty guard in this effect. -/
def persistAssetsEffect (assets : List UiAsset) (c : LocalCache) : LocalCache :=
  { c with assetsKey := some assets }

/-- The events persistence observer (page.tsx 1794-1802): writes only
when the collection is non-empty. -/
def persistEventsEffect (events : List EventRecord) (c : LocalCache) : LocalCache :=
  if events.length > 0 then { c with eventsKey := some events } else c

/-- The text-items persistence observer (page.tsx 1990-1998). -/
def persistTextItemsEffect (items : List TextItem) (c : LocalCache) : LocalCache :=
  if items.length > 0 then { c with textKey := some items } else c

/-- The text-groups persistence observer (page.tsx 2069-2077). -/
def persistTextGroupsEffect (groups : List TextGroup) (c : LocalCache) : LocalCache :=
  if groups.length > 0 then { c with textGroupsKey := some groups } else c

/-- The text-sections persistence observer (page.tsx 2079-2087). -/
def persistTextSectionsEffect (sections : List TextSection) (c : LocalCache) : LocalCache :=
  if sections.length > 0 then { c with textSectionsKey := some sections } else c

/-- The activity persistence observer (page.tsx 1776-1784). -/
def persistActivityEffect (logs : List ActivityEntry) (c : LocalCache) : LocalCache :=
  if logs.length > 0 then { c with activityKey := some logs } else c

/-- One observable step of a mutation handler, in program order:
an in-memory state update (`setXxx`), an activity-log append, the start
of a remote push attempt (labelled with its target resource), or an
outbound notification. -/
inductive MutStep where
  | memUpdate (collection : String)
  | activityAppend
  | remotePush (target : String)
  | notify
  deriving DecidableEq, Repr

/-- Is this step an in-memory update? -/
def isMem : MutStep → Bool
  | .memUpdate _ => true
  | _ => false

/-- Is this step an activity-log append? -/
def isAppend : MutStep → Bool
  | .activityAppend => true
  | _ => false

/-- Is this step the start of a remote push? -/
def isPush : MutStep → Bool
  | .remotePush _ => true
  | _ => false

/-- Is this step the start of a remote push to the given target? -/
def isPushTo (target : String) : MutStep → Bool
  | .remotePush t => t = target
  | _ => false

/-- `stepsOrdered before after t`: in trace `t`, every `before`-step
occurs strictly before every `after`-step (no `after`-step is followed by
a `before`-step). -/
def stepsOrdered (before after : MutStep → Bool) : List MutStep → Bool
  | [] => true
  | s :: rest =>
    (if after s then rest.all (fun x => !before x) else true)
      && stepsOrdered before after rest

/-- The per-mutation ordering property asserted by the spec: in-memory
update before activity append, activity append before any remote push. -/
def mutationOrderOK (t : List MutStep) : Bool :=
  stepsOrdered isMem isAppend t && stepsOrdered isAppend isPush t

/-- Trace of `addActivityEntries` (page.tsx 2955-2967): append to the
in-memory log, then (unless in dev mode or missing a token) start the
remote activity push. Empty entry lists are a no-op. -/
def addActivityEntriesTrace (devUser hasToken entriesNonempty : Bool) : List MutStep :=
  if !entriesNonempty then [] else
  [.activityAppend]
    ++ (if devUser then [] else if hasToken then [.remotePush "activity"] else [])

/-- Trace of `handleReviewAction` (page.tsx 2607-2657): update assets,
append the STATUS_CHANGED entry, optionally notify, then push the updated
asset when a token is available and the asset was found. -/
def handleReviewActionTrace (devUser hasToken currentFound notifyOn : Bool) : List MutStep :=
  [.memUpdate "assets"]
    ++ addActivityEntriesTrace devUser hasToken true
    ++ (if notifyOn then [.notify] else [])
    ++ (if hasToken && currentFound then [.remotePush "assets"] else [])

/-- Trace of `handleUpload` (page.tsx 2488-2605). After the guards
(re-entrancy lock, required event/files/tones, GIF-or-MP4 filter, token
and storage configuration, at least one successfully uploaded file), the
handler updates the assets state, *awaits the remote assets push*, and
only then appends the CREATED activity entries and optionally notifies. -/
def handleUploadTrace (locked hasEventAndFiles tonesNonempty allowedNonempty
    hasTokenAndR2 assetsNonempty devUser notifyNew : Bool) : List MutStep :=
  if locked then [] else
  if !hasEventAndFiles then [] else
  if !tonesNonempty then [] else
  if !allowedNonempty then [] else
  if !hasTokenAndR2 then [] else
  if !assetsNonempty then [] else
  [.memUpdate "assets", .remotePush "assets"]
    ++ addActivityEntriesTrace devUser true true
    ++ (if notifyNew then [.notify] else [])

/-- `buildActivityEntry` (page.tsx 2969-2973) applied to a
STATUS_CHANGED payload: the id and timestamp come from the threaded
generator arguments. -/
def mkStatusChangedEntry (freshId now : String) (subjectType : ActivitySubject)
    (subjectId actor : String) (fromStatus : Option AssetStatus)
    (toStatus : AssetStatus) (comment : String) : ActivityEntry :=
  { id := freshId
    subjectType := subjectType
    subjectId := subjectId
    action := .STATUS_CHANGED
    actor := actor
    timestamp := now
    fromStatus := fromStatus
    toStatus := some toStatus
    comment := comment }

/-- Data effect of `handleReviewAction` (page.tsx 2607-2657) on the
assets collection and the activity log: the matching asset gets the new
status, reviewer and (for HOLD) refinement notes; exactly one
STATUS_CHANGED entry is appended, unconditionally, with `fromStatus` the
previous status of the asset (when found) and `toStatus` the action. -/
def handleReviewActionUpdate (assets : List UiAsset) (assetId : String)
    (action : AssetStatus) (notes actor now freshId : String) :
    List UiAsset × List ActivityEntry :=
  let current := assets.find? (fun a => a.id = assetId)
  let cleanedNotes := jsTrim notes
  let newAssets := assets.map (fun a =>
    if a.id = assetId then
      { a with
        status := action
        reviewer := some actor
        notesRefinement := if action = .HOLD then cleanedNotes else a.notesRefinement
        updatedAt := some now }
    else a)
  let entry := mkStatusChangedEntry freshId now .asset assetId actor
    (current.map (·.status)) action cleanedNotes
  (newAssets, [entry])

/-- Data effect of `applyTextStatus` (page.tsx 3110-3164): every item
whose id is in `ids` gets the new status (reviewer cleared for
TO_REVIEW, review notes kept only for HOLD/REJECTED); one STATUS_CHANGED
entry per matching item is appended, unconditionally. When no item
matches, a sync-error message is set and the state is unchanged. -/
def applyTextStatusUpdate (items : List TextItem) (ids : List String)
    (status : AssetStatus) (reviewNotes actor now : String)
    (freshIds : Nat → String) : List TextItem × List ActivityEntry × String :=
  let updatedItems := (items.filter (fun i => ids.contains i.id)).map (fun i =>
    { i with
      status := status
      reviewer := if status = .TO_REVIEW then none else some actor
      reviewNotes := if status = .HOLD || status = .REJECTED then reviewNotes else ""
      updatedAt := some now })
  if updatedItems.length = 0 then
    (items, [], "Unable to update text status. Please refresh and try again.")
  else
    let matching := items.filter (fun i => ids.contains i.id)
    let entries := matching.enum.map (fun p =>
      mkStatusChangedEntry (freshIds p.1) now .text p.2.id actor
        (some p.2.status) status
        (if reviewNotes ≠ "" then jsTrim reviewNotes else ""))
    let newItems := items.map (fun i =>
      if ids.contains i.id then (updatedItems.find? (fun u => u.id = i.id)).getD i else i)
    (newItems, entries, "")

/-- The text editor draft (`textDraft` state in page.tsx). `groupId` and
`sectionId` use `""` for the unset selection, as in the source. -/
structure TextDraft where
  title : String
  body : String
  category : String
  tags : String
  status : AssetStatus
  reviewNotes : String
  groupId : String
  sectionId : String
  deriving DecidableEq, Repr

/-- Data effect of the edit branch of `handleSaveText` (page.tsx
3192-3268) on an existing item: `none` models the synchronous validation
aborts (empty title and body, or HOLD/REJECTED without review notes).
The STATUS_CHANGED entry is appended *only when* the resolved status
differs from the existing item's status. -/
def handleSaveTextEdit (items : List TextItem) (sectionsList : List TextSection)
    (editingTextId : String) (draft : TextDraft) (isReviewer : Bool)
    (actor now freshId : String) : Option (List TextItem × List ActivityEntry) :=
  let title := jsTrim draft.title
  let body := jsTrim draft.body
  if title = "" && body = "" then none else
  let category := if jsTrim draft.category ≠ "" then jsTrim draft.category else "Idea"
  let tags := ((jsSplitOnChar ',' draft.tags).map jsTrim).filter (· ≠ "")
  let groupId := if draft.groupId ≠ "" then some draft.groupId else none
  let sectionRec :=
    if draft.sectionId ≠ "" then sectionsList.find? (fun s => s.id = draft.sectionId) else none
  let sectionId :=
    match groupId, sectionRec with
    | some gid, some s => if s.groupId = gid then some s.id else none
    | _, _ => none
  let status := if isReviewer then draft.status else .TO_REVIEW
  let reviewNotes := if isReviewer then jsTrim draft.reviewNotes else ""
  if (status = .HOLD || status = .REJECTED) && reviewNotes = "" then none else
  let resolvedTitle :=
    if title ≠ "" then title
    else
      let firstLine := jsTrim (jsTake 60 ((jsSplitOnChar '\n' body).headD ""))
      if firstLine ≠ "" then firstLine else "Untitled idea"
  let existing := items.find? (fun i => i.id = editingTextId)
  let newItems := items.map (fun i =>
    if i.id = editingTextId then
      { i with
        title := resolvedTitle
        body := body
        category := category
        tags := tags
        groupId := groupId
        sectionId := sectionId
        status := status
        reviewer := if status = .TO_REVIEW then none else some actor
        reviewNotes := if status = .HOLD || status = .REJECTED then reviewNotes else ""
        updatedAt := some now }
    else i)
  let entries :=
    match existing with
    | some ex =>
      if ex.status ≠ status then
        [mkStatusChangedEntry freshId now .text ex.id actor (some ex.status) status
          (if reviewNotes ≠ "" then jsTrim reviewNotes else "")]
      else []
    | none => []
  some (newItems, entries)

/-- Data effect of `handleDeleteGroup` (page.tsx 3634-3671): `none` when
the group does not exist or the confirm dialog is declined; otherwise the
group is removed, its member sections are removed, and its member items
have both `groupId` and `sectionId` cleared. -/
def handleDeleteGroupUpdate (groups : List TextGroup) (sections : List TextSection)
    (items : List TextItem) (groupId : String) (confirmed : Bool) :
    Option (List TextGroup × List TextSection × List TextItem) :=
  match groups.find? (fun grp => grp.id = groupId) with
  | none => none
  | some _ =>
    if !confirmed then none else
    let newGroups := groups.filter (fun grp => grp.id ≠ groupId)
    let newSections := sections.filter (fun s => s.groupId ≠ groupId)
    let newItems := items.map (fun i =>
      if i.groupId = some groupId then { i with groupId := none, sectionId := none } else i)
    some (newGroups, newSections, newItems)

/-- Data effect of `handleDeleteSection` (page.tsx 3505-3534): the
section is removed and its member items have only `sectionId` cleared;
groups and all other records are untouched. -/
def handleDeleteSectionUpdate (sections : List TextSection) (items : List TextItem)
    (sectionId : String) (confirmed : Bool) :
    Option (List TextSection × List TextItem) :=
  match sections.find? (fun s => s.id = sectionId) with
  | none => none
  | some _ =>
    if !confirmed then none else
    let newSections := sections.filter (fun s => s.id ≠ sectionId)
    let newItems := items.map (fun i =>
      if i.sectionId = some sectionId then { i with sectionId := none } else i)
    some (newSections, newItems)

/-- An incoming API request: `user` is the result of
`requireSupabaseUser` (`none` = missing/invalid bearer token), `body` is
the parsed JSON body (`none` = `request.json()` threw; the handlers catch
this and proceed with `{}`). -/
structure ApiRequest where
  user : Option String
  body : Option JVal

/-- Observable outcome of a batch-upsert POST handler: the HTTP status
and the rows handed to the database upsert (`none` = the handler returned
before attempting any write). -/
structure ApiResult where
  status : Nat
  upserted : Option (List JVal)

/-- `Array.isArray(payload.k) ? payload.k : []` over the parsed body
(parse failures yield `{}`). -/
def extractRecords (body : Option JVal) (wrapKey : String) : List JVal :=
  let payload := body.getD (.jobj [])
  match payload.get? wrapKey with
  | some (.jarr xs) => xs
  | _ => []

/-- The common shape of all six batch-upsert POST handlers: 401 before
reading the body when auth fails, 400 when the wrapped record array is
missing/non-array/empty, otherwise one upsert of the mapped rows (500 on
a database error, 200 on success). -/
def batchUpsertPost (req : ApiRequest) (wrapKey : String) (mapRow : JVal → JVal)
    (dbOk : Bool) : ApiResult :=
  match req.user with
  | none => { status := 401, upserted := none }
  | some _ =>
    let records := extractRecords req.body wrapKey
    if records.length = 0 then { status := 400, upserted := none }
    else if dbOk then { status := 200, upserted := some (records.map mapRow) }
    else { status := 500, upserted := some (records.map mapRow) }

/-- `mapToDbAsset` (src/app/api/assets/route.ts 100-119). Plain property
reads and `?? null` both serialize an absent field to SQL NULL here, so
both are modelled by defaulting to `jnull`. -/
def mapToDbAsset (a : JVal) : JVal :=
  .jobj
    [("id", (a.get? "id").getD .jnull),
     ("title", (a.get? "title").getD .jnull),
     ("event_id", (a.get? "eventId").getD .jnull),
     ("skin_tone", (a.get? "skinTone").getD .jnull),
     ("status", (a.get? "status").getD .jnull),
     ("uploader", (a.get? "uploader").getD .jnull),
     ("reviewer", (a.getNN "reviewer").getD .jnull),
     ("created_at", (a.get? "createdAt").getD .jnull),
     ("updated_at", (a.getNN "updatedAt").getD .jnull),
     ("version", (a.getNN "version").getD (.jnum 1)),
     ("notes_refinement", (a.getNN "notesRefinement").getD .jnull),
     ("notes_ideas", (a.getNN "notesIdeas").getD .jnull),
     ("preview_color", (a.getNN "previewColor").getD .jnull),
     ("media_url", (a.getNN "mediaUrl").getD .jnull),
     ("media_type", (a.getNN "mediaType").getD .jnull),
     ("media_storage", (a.getNN "mediaStorage").getD .jnull),
     ("file_name", (a.getNN "fileName").getD .jnull),
     ("file_size", (a.getNN "fileSize").getD .jnull)]

/-- `mapToDbItem` (src/app/api/text-items/route.ts 22-35). -/
def mapToDbItem (g : Gen) (a : JVal) : JVal :=
  .jobj
    [("id", (a.get? "id").getD .jnull),
     ("title", (a.get? "title").getD .jnull),
     ("body", (a.get? "body").getD .jnull),
     ("category", (a.get? "category").getD .jnull),
     ("status", (a.get? "status").getD .jnull),
     ("author", (a.get? "author").getD .jnull),
     ("reviewer", (a.getNN "reviewer").getD .jnull),
     ("tags", (a.getNN "tags").getD (.jarr [])),
     ("review_notes", (a.getNN "reviewNotes").getD .jnull),
     ("group_id", (a.getNN "groupId").getD .jnull),
     ("section_id", (a.getNN "sectionId").getD .jnull),
     ("updated_at", (a.getNN "updatedAt").getD (.jstr g.nowIso))]

/-- `mapToDbGroup` (src/app/api/text-groups/route.ts 15-21). -/
def mapToDbGroup (g : Gen) (a : JVal) : JVal :=
  .jobj
    [("id", (a.get? "id").getD .jnull),
     ("name", (a.get? "name").getD .jnull),
     ("description", (a.getNN "description").getD .jnull),
     ("event_id", (a.getNN "eventId").getD .jnull),
     ("updated_at", (a.getNN "updatedAt").getD (.jstr g.nowIso))]

/-- `mapToDbSection` (src/app/api/text-sections/route.ts 15-21). -/
def mapToDbSection (g : Gen) (a : JVal) : JVal :=
  .jobj
    [("id", (a.get? "id").getD .jnull),
     ("group_id", (a.get? "groupId").getD .jnull),
     ("name", (a.get? "name").getD .jnull),
     ("description", (a.getNN "description").getD .jnull),
     ("updated_at", (a.getNN "updatedAt").getD (.jstr g.nowIso))]

/-- `mapToDbEvent` (src/app/api/events/route.ts 114-124). -/
def mapToDbEvent (g : Gen) (a : JVal) : JVal :=
  .jobj
    [("id", (a.get? "id").getD .jnull),
     ("name", (a.get? "name").getD .jnull),
     ("start_date", (a.get? "startDate").getD .jnull),
     ("end_date", (a.getNN "endDate").getD .jnull),
     ("total_target", (a.get? "totalTarget").getD .jnull),
     ("per_tone_target", (a.getNN "perToneTarget").getD (.jnum 0)),
     ("tier", (a.get? "tier").getD .jnull),
     ("description", (a.getNN "description").getD .jnull),
     ("updated_at", (a.getNN "updatedAt").getD (.jstr g.nowIso))]

/-- `mapToDbActivity` (src/app/api/activity/route.ts 19-29). -/
def mapToDbActivity (a : JVal) : JVal :=
  .jobj
    [("id", (a.get? "id").getD .jnull),
     ("subject_type", (a.get? "subjectType").getD .jnull),
     ("subject_id", (a.get? "subjectId").getD .jnull),
     ("action", (a.get? "action").getD .jnull),
     ("actor", (a.get? "actor").getD .jnull),
     ("timestamp", (a.get? "timestamp").getD .jnull),
     ("from_status", (a.getNN "fromStatus").getD .jnull),
     ("to_status", (a.getNN "toStatus").getD .jnull),
     ("comment", (a.getNN "comment").getD .jnull)]

/-- `POST /api/assets` (src/app/api/assets/route.ts 140-175); the
Telegram notification step runs only after a successful upsert and does
not affect the stored collection. -/
def postAssets (req : ApiRequest) (dbOk : Bool) : ApiResult :=
  batchUpsertPost req "assets" mapToDbAsset dbOk

/-- `POST /api/events` (src/app/api/events/route.ts 145-173). -/
def postEvents (g : Gen) (req : ApiRequest) (dbOk : Bool) : ApiResult :=
  batchUpsertPost req "events" (mapToDbEvent g) dbOk

/-- `POST /api/text-items` (src/app/api/text-items/route.ts 56-84). -/
def postTextItems (g : Gen) (req : ApiRequest) (dbOk : Bool) : ApiResult :=
  batchUpsertPost req "items" (mapToDbItem g) dbOk

/-- `POST /api/text-groups` (src/app/api/text-groups/route.ts 42-70). -/
def postTextGroups (g : Gen) (req : ApiRequest) (dbOk : Bool) : ApiResult :=
  batchUpsertPost req "groups" (mapToDbGroup g) dbOk

/-- `POST /api/text-sections` (src/app/api/text-sections/route.ts 42-70). -/
def postTextSections (g : Gen) (req : ApiRequest) (dbOk : Bool) : ApiResult :=
  batchUpsertPost req "sections" (mapToDbSection g) dbOk

/-- `POST /api/activity` (src/app/api/activity/route.ts 50-78). -/
def postActivity (req : ApiRequest) (dbOk : Bool) : ApiResult :=
  batchUpsertPost req "activity" mapToDbActivity dbOk

/-- A fixed clock environment used by the concrete scenarios below. -/
def sampleGen : Gen := ⟨"2026-01-01T00:00:00.000Z", "1700000000000"⟩

/-- A canonical in-memory asset used by the concrete scenarios. -/
def sampleAsset : UiAsset :=
  { id := "a1", title := "Launch teaser", eventId := "christmas", skinTone := .ALL
    status := .APPROVED, uploader := "creator@example.com", reviewer := none
    createdAt := "2026-01-01T00:00:00.000Z", updatedAt := none, version := 1
    notesRefinement := "", notesIdeas := "", previewColor := "#94a3b8"
    mediaUrl := none, mediaType := none, mediaStorage := none
    fileName := none, fileSize := none }

/-- A cached assets collection holding `sampleAsset`. -/
def sampleCache : LocalCache :=
  { assetsKey := some [sampleAsset], eventsKey := none, textKey := none
    textGroupsKey := none, textSectionsKey := none, activityKey := none }

/-- A valid cached text-items JSON array (one normalizable record). -/
def sampleItemsJson : JVal :=
  .jarr [.jobj [("id", .jstr "t1"), ("title", .jstr "Hello"),
                ("body", .jstr "World"), ("status", .jstr "TO_REVIEW")]]

/-- Offline-fallback scenario for the text loader: authenticated, the
items fetch throws, groups/sections fetches succeed, and a non-empty
valid items cache exists. -/
def offlineTextEnv : TextLoadEnv :=
  { devUser := false, authToken := "tok"
    netGroups := some ⟨200, some (.jarr [])⟩
    netSections := some ⟨200, some (.jarr [])⟩
    netItems := none
    cacheGroups := none, cacheSections := none
    cacheItems := some (some sampleItemsJson)
    mockGroups := [], mockSections := [], mockItems := [] }

/-- A valid cached assets JSON array (one normalizable record). -/
def sampleAssetsJson : JVal :=
  .jarr [.jobj [("id", .jstr "a9"), ("title", .jstr "Cached"),
                ("eventId", .jstr "christmas"), ("skinTone", .jstr "ALL"),
                ("status", .jstr "APPROVED")]]

/-- Offline-fallback scenario for the assets loader: authenticated, the
fetch throws, and a non-empty valid assets cache exists. -/
def offlineAssetsEnv : AssetsLoadEnv :=
  { devUser := false, authToken := "tok", net := none
    cache := some (some sampleAssetsJson), mockAssets := [] }

/-- Seed-on-empty scenario for the events loader: authenticated and the
remote fetch returns an empty wrapped array. -/
def emptyRemoteEventsEnv : EventsLoadEnv :=
  { devUser := false, authToken := "tok"
    net := some ⟨200, some (.jobj [("events", .jarr [])])⟩
    saveNet := some ⟨200, some (.jobj [])⟩, cache := none }

/-- Empty-remote scenario for the assets loader: authenticated and the
remote fetch returns an empty wrapped array. -/
def emptyRemoteAssetsEnv : AssetsLoadEnv :=
  { devUser := false, authToken := "tok"
    net := some ⟨200, some (.jobj [("assets", .jarr [])])⟩
    cache := some (some sampleAssetsJson), mockAssets := [sampleAsset] }

/-- A text item used by the concrete scenarios. -/
def sampleTextItem : TextItem :=
  { id := "t1", title := "Hello", body := "World", category := "Idea"
    status := .APPROVED, author := "creator@example.com", reviewer := none
    createdAt := "2026-01-01T00:00:00.000Z", updatedAt := none, tags := []
    reviewNotes := "", groupId := some "g1", sectionId := some "s1" }

/-- A second text item, outside the group `g1`. -/
def otherTextItem : TextItem :=
  { id := "t2", title := "Other", body := "Body", category := "Idea"
    status := .TO_REVIEW, author := "creator@example.com", reviewer := none
    createdAt := "2026-01-01T00:00:00.000Z", updatedAt := none, tags := []
    reviewNotes := "", groupId := some "g2", sectionId := none }

/-- A text group used by the concrete scenarios. -/
def sampleGroup : TextGroup :=
  { id := "g1", name := "Christmas Prompts", description := ""
    eventId := none, createdAt := "2026-01-01T00:00:00.000Z", updatedAt := none }

/-- A second text group. -/
def otherGroup : TextGroup :=
  { id := "g2", name := "General", description := ""
    eventId := none, createdAt := "2026-01-01T00:00:00.000Z", updatedAt := none }

/-- A section of `sampleGroup`. -/
def sampleSection : TextSection :=
  { id := "s1", groupId := "g1", name := "Countdown", description := ""
    createdAt := "2026-01-01T00:00:00.000Z", updatedAt := none }

/-- A section of `otherGroup`. -/
def otherSection : TextSection :=
  { id := "s2", groupId := "g2", name := "Misc", description := ""
    createdAt := "2026-01-01T00:00:00.000Z", updatedAt := none }

/-- The canonical camelCase JSON form of an asset record, all fields
present, with the status and tone spellings supplied as parameters. -/
def canonicalAssetObj (id title eventId tone status uploader reviewer createdAt
    updatedAt : String) (version : Int) (notesR notesI previewColor mediaUrl
    mediaType mediaStorage fileName : String) (fileSize : Int) : JVal :=
  .jobj
    [("id", .jstr id), ("title", .jstr title), ("eventId", .jstr eventId),
     ("skinTone", .jstr tone), ("status", .jstr status),
     ("uploader", .jstr uploader), ("reviewer", .jstr reviewer),
     ("createdAt", .jstr createdAt), ("updatedAt", .jstr updatedAt),
     ("version", .jnum version), ("notesRefinement", .jstr notesR),
     ("notesIdeas", .jstr notesI), ("previewColor", .jstr previewColor),
     ("mediaUrl", .jstr mediaUrl), ("mediaType", .jstr mediaType),
     ("mediaStorage", .jstr mediaStorage), ("fileName", .jstr fileName),
     ("fileSize", .jnum fileSize)]

/-- The same record in the legacy snake_case form (fields that have no
snake_case alias in the normalizer — id, title, uploader, reviewer,
version — keep their only spelling). -/
def legacyAssetObj (id title eventId tone status uploader reviewer createdAt
    updatedAt : String) (version : Int) (notesR notesI previewColor mediaUrl
    mediaType mediaStorage fileName : String) (fileSize : Int) : JVal :=
  .jobj
    [("id", .jstr id), ("title", .jstr title), ("event_id", .jstr eventId),
     ("skin_tone", .jstr tone), ("status", .jstr status),
     ("uploader", .jstr uploader), ("reviewer", .jstr reviewer),
     ("created_at", .jstr createdAt), ("updated_at", .jstr updatedAt),
     ("version", .jnum version), ("notes_refinement", .jstr notesR),
     ("notes_ideas", .jstr notesI), ("preview_color", .jstr previewColor),
     ("media_url", .jstr mediaUrl), ("media_type", .jstr mediaType),
     ("media_storage", .jstr mediaStorage), ("file_name", .jstr fileName),
     ("file_size", .jnum fileSize)]

/-- C2 — counterexample. In `handleUpload` with every guard passing
(not locked, event and files present, tones selected, valid files, token
and storage configured, at least one asset built), the remote assets
push is awaited *before* the activity-log append, so the claimed
"in-memory update, then activity append, then remote push" order fails
on this mutation. -/
theorem C2_counterexample :
    mutationOrderOK (handleUploadTrace false true true true true true false false) = false := by
  decide

/-- C2 — amended. For every guard configuration: `handleReviewAction`
satisfies the full claimed order (in-memory update before activity
append before any remote push); `handleUpload` puts the in-memory update
before both the append and every push, and the append before the
activity push, but its assets push precedes every activity append. -/
theorem C2_amended :
    ∀ dv ht cf nf lk hef tn an htk asn du nn : Bool,
      mutationOrderOK (handleReviewActionTrace dv ht cf nf) = true ∧
      stepsOrdered isMem isAppend (handleUploadTrace lk hef tn an htk asn du nn) = true ∧
      stepsOrdered isMem isPush (handleUploadTrace lk hef tn an htk asn du nn) = true ∧
      stepsOrdered isAppend (isPushTo "activity")
        (handleUploadTrace lk hef tn an htk asn du nn) = true ∧
      stepsOrdered (isPushTo "assets") isAppend
        (handleUploadTrace lk hef tn an htk asn du nn) = true := by
  decide

/-- C3 — counterexample. `saveTextItemsToApi` performs a second request
attempt when the first response is a 401 (after refreshing the session),
so not every remote collection client operation makes exactly one
attempt. -/
theorem C3_counterexample :
    (saveTextItemsToApi [] "tok" "tok2" (some ⟨401, none⟩) (some ⟨200, none⟩)).2 = 2 ∧
    (saveTextItemsToApi [] "tok" "tok2" (some ⟨401, none⟩) (some ⟨200, none⟩)).2 ≠ 1 := by
  exact ⟨rfl, by decide⟩

/-- C3 — amended. Every remote collection client operation except
`saveTextItemsToApi` makes exactly one request attempt, never throws
(modelled by totality), and signals failure only through its return
value: the fetches return `null` on a thrown network error or a non-2xx
status, and the saves/deletes return `false`. `saveTextItemsToApi` makes
one attempt unless the first response has status 401, in which case it
refreshes the session and makes exactly one more. -/
theorem C3_amended :
    ∀ (g : Gen) (o o2 : NetOutcome) (tok rtok id : String)
      (assets : List UiAsset) (events : List EventRecord)
      (groups : List TextGroup) (sectionsL : List TextSection)
      (items : List TextItem) (entries : List ActivityEntry),
      (fetchAssetsFromApi g o).2 = 1 ∧
      (saveAssetsToApi assets o).2 = 1 ∧
      (deleteAssetFromApi id o).2 = 1 ∧
      (fetchEventsFromApi g o).2 = 1 ∧
      (saveEventsToApi events o).2 = 1 ∧
      (fetchTextGroupsFromApi g o).2 = 1 ∧
      (saveTextGroupsToApi groups o).2 = 1 ∧
      (deleteTextGroupFromApi id o).2 = 1 ∧
      (fetchTextSectionsFromApi g o).2 = 1 ∧
      (saveTextSectionsToApi sectionsL o).2 = 1 ∧
      (deleteTextSectionFromApi id o).2 = 1 ∧
      (fetchTextItemsFromApi g o).2 = 1 ∧
      (deleteTextItemFromApi id o).2 = 1 ∧
      (fetchActivityFromApi g o).2 = 1 ∧
      (saveActivityEntriesToApi entries o).2 = 1 ∧
      (o = none →
        (fetchAssetsFromApi g o).1 = none ∧
        (saveAssetsToApi assets o).1 = false ∧
        (deleteAssetFromApi id o).1 = false ∧
        (saveTextItemsToApi items tok rtok o o2) = (false, 1)) ∧
      (∀ r, o = some r → respOk r = false →
        (fetchAssetsFromApi g o).1 = none ∧
        (fetchTextItemsFromApi g o).1 = none ∧
        (saveAssetsToApi assets o).1 = false) ∧
      (∀ r, o = some r → r.status = 401 →
        (saveTextItemsToApi items tok rtok o o2).2 = 2) ∧
      (∀ r, o = some r → r.status ≠ 401 →
        (saveTextItemsToApi items tok rtok o o2) = (respOk r, 1)) := by
  intro g o o2 tok rtok id assets events groups sectionsL items entries
  refine ⟨rfl, rfl, rfl, rfl, rfl, rfl, rfl, rfl, rfl, rfl, rfl, rfl, rfl, rfl, rfl,
    ?_, ?_, ?_, ?_⟩
  · rintro rfl
    exact ⟨rfl, rfl, rfl, rfl⟩
  · rintro r rfl hr
    simp [fetchAssetsFromApi, fetchTextItemsFromApi, saveAssetsToApi, hr]
  · rintro r rfl hr
    simp [saveTextItemsToApi, hr]
    cases o2 <;> rfl
  · rintro r rfl hr
    simp [saveTextItemsToApi, hr]

/-- C3 — amended, witness. -/
theorem C3_amended_witness :
    (saveTextItemsToApi [] "t" "r" (some ⟨401, none⟩) none).2 = 2 ∧
    (fetchAssetsFromApi sampleGen (some ⟨500, none⟩)).1 = none := by
  obtain ⟨-, -, -, -, -, -, -, -, -, -, -, -, -, -, -, -, -, h401, -⟩ :=
    C3_amended sampleGen (some ⟨401, none⟩) none "t" "r" "a" [] [] [] [] [] []
  obtain ⟨-, -, -, -, -, -, -, -, -, -, -, -, -, -, -, -, hNok2, -, -⟩ :=
    C3_amended sampleGen (some ⟨500, none⟩) none "t" "r" "a" [] [] [] [] [] []
  exact ⟨h401 ⟨401, none⟩ rfl rfl, (hNok2 ⟨500, none⟩ rfl (by decide)).1⟩

/-- C4 — counterexample. The assets persistence observer has no
non-empty guard: emptying the in-memory assets collection overwrites the
previously cached value with the empty list, so the "write only when
non-empty" policy does not hold for the assets collection. -/
theorem C4_counterexample :
    sampleCache.assetsKey = some [sampleAsset] ∧
    (persistAssetsEffect [] sampleCache).assetsKey = some [] ∧
    (persistAssetsEffect [] sampleCache).assetsKey ≠ sampleCache.assetsKey := by
  refine ⟨rfl, rfl, by decide⟩

/-- C4 — amended. The events, text-items, text-groups, text-sections and
activity observers write their key only when the collection is non-empty
(an emptied collection leaves the cached value unchanged), and each
observer touches only its own key; the assets observer, however, writes
its key unconditionally — including the empty list. -/
theorem C4_amended :
    ∀ (c : LocalCache) (assets : List UiAsset)
      (e : EventRecord) (es : List EventRecord)
      (t : TextItem) (ts : List TextItem)
      (gr : TextGroup) (grs : List TextGroup)
      (s : TextSection) (ss : List TextSection)
      (a : ActivityEntry) (acts : List ActivityEntry),
      persistEventsEffect [] c = c ∧
      persistTextItemsEffect [] c = c ∧
      persistTextGroupsEffect [] c = c ∧
      persistTextSectionsEffect [] c = c ∧
      persistActivityEffect [] c = c ∧
      persistEventsEffect (e :: es) c = { c with eventsKey := some (e :: es) } ∧
      persistTextItemsEffect (t :: ts) c = { c with textKey := some (t :: ts) } ∧
      persistTextGroupsEffect (gr :: grs) c = { c with textGroupsKey := some (gr :: grs) } ∧
      persistTextSectionsEffect (s :: ss) c = { c with textSectionsKey := some (s :: ss) } ∧
      persistActivityEffect (a :: acts) c = { c with activityKey := some (a :: acts) } ∧
      persistAssetsEffect assets c = { c with assetsKey := some assets } ∧
      (persistAssetsEffect assets c).eventsKey = c.eventsKey ∧
      (persistAssetsEffect assets c).textKey = c.textKey ∧
      (persistEventsEffect es c).assetsKey = c.assetsKey := by
  intro c assets e es t ts gr grs s ss a acts
  refine ⟨rfl, rfl, rfl, rfl, rfl, ?_, ?_, ?_, ?_, ?_, rfl, rfl, rfl, ?_⟩
  · simp [persistEventsEffect]
  · simp [persistTextItemsEffect]
  · simp [persistTextGroupsEffect]
  · simp [persistTextSectionsEffect]
  · simp [persistActivityEffect]
  · simp only [persistEventsEffect]
    split <;> rfl

/-- C5 — when an authenticated remote fetch returns an empty sequence,
the events loader pushes `buildSeedEvents` to the remote and adopts that
same set in memory, while the assets loader adopts the empty result
as-is, with no seeding and no cache read. -/
theorem C5_seed_on_empty :
    ∀ (g : Gen) (env : EventsLoadEnv) (envA : AssetsLoadEnv),
      (env.devUser = false → env.authToken ≠ "" →
        (fetchEventsFromApi g env.net).1 = some [] →
        loadEventData g env =
          { events := some buildSeedEvents, remoteSaved := some buildSeedEvents
            cacheWritten := none, usedCache := false }) ∧
      (envA.devUser = false → envA.authToken ≠ "" →
        (fetchAssetsFromApi g envA.net).1 = some [] →
        loadData g envA =
          { assets := some [], syncError := "", cacheWritten := none
            usedCache := false }) := by
  intro g env envA
  constructor
  · intro hdev htok hfetch
    simp [loadEventData, hdev, htok, hfetch]
  · intro hdev htok hfetch
    simp [loadData, hdev, htok, hfetch]

/-- C5 — witness. -/
theorem C5_seed_on_empty_witness :
    loadEventData sampleGen emptyRemoteEventsEnv =
      { events := some buildSeedEvents, remoteSaved := some buildSeedEvents
        cacheWritten := none, usedCache := false } ∧
    loadData sampleGen emptyRemoteAssetsEnv =
      { assets := some [], syncError := "", cacheWritten := none
        usedCache := false } := by
  obtain ⟨h1, h2⟩ := C5_seed_on_empty sampleGen emptyRemoteEventsEnv emptyRemoteAssetsEnv
  exact ⟨h1 rfl (by decide) rfl, h2 rfl (by decide) rfl⟩

/-- C1 — counterexample. For the text groups/sections/items group, an
authenticated load whose items fetch throws surfaces the sync-error
message but performs *no* cache fallback: the loader returns without
setting the collections, so the in-memory items do not become the
normalized (non-empty, valid) cache content. -/
theorem C1_counterexample :
    (loadTextData sampleGen offlineTextEnv).syncError =
      "Unable to load team text items. Please refresh." ∧
    readTextCache (normalizeStoredTextItems sampleGen) offlineTextEnv.cacheItems ≠ [] ∧
    (loadTextData sampleGen offlineTextEnv).items = none ∧
    (loadTextData sampleGen offlineTextEnv).items ≠
      some (readTextCache (normalizeStoredTextItems sampleGen) offlineTextEnv.cacheItems) := by
  refine ⟨rfl, by decide, rfl, ?_⟩
  rw [show (loadTextData sampleGen offlineTextEnv).items = none from rfl]
  simp

/-- C1 — amended. When authenticated and the remote fetch returns null:
the *assets* loader surfaces the sync-error message and falls back to the
Local Cache Store, so a non-empty valid cache is adopted as the in-memory
collection; the *text* loader surfaces its sync-error message but
performs no cache fallback at all — it returns leaving the three text
collections untouched. -/
theorem C1_amended :
    ∀ (g : Gen) (env : AssetsLoadEnv) (envT : TextLoadEnv),
      (env.devUser = false → env.authToken ≠ "" →
        (fetchAssetsFromApi g env.net).1 = none →
        (loadData g env).syncError = "Unable to load team assets. Showing local cache." ∧
        (∀ v, env.cache = some (some v) → normalizeStoredAssets g v ≠ [] →
          (loadData g env).assets = some (normalizeStoredAssets g v) ∧
          (loadData g env).usedCache = true)) ∧
      (envT.devUser = false → envT.authToken ≠ "" →
        ((fetchTextGroupsFromApi g envT.netGroups).1 = none ∨
         (fetchTextSectionsFromApi g envT.netSections).1 = none ∨
         (fetchTextItemsFromApi g envT.netItems).1 = none) →
        loadTextData g envT =
          { groups := none, sections := none, items := none
            syncError := "Unable to load team text items. Please refresh."
            cacheWrittenGroups := none, cacheWrittenSections := none
            cacheWrittenItems := none }) := by
  intro g env envT
  constructor
  · intro hdev htok hfetch
    constructor
    · simp [loadData, hdev, htok, hfetch, assetsCacheOrSeed]
      split <;> rfl
    · intro v hcache hne
      have hlen : 0 < (normalizeStoredAssets g v).length :=
        List.length_pos.mpr hne
      simp [loadData, hdev, htok, hfetch, assetsCacheOrSeed, hcache, hlen]
  · intro hdev htok hfail
    simp only [loadTextData, hdev, htok]
    rcases hfail with h | h | h <;>
      · rw [h]
        split <;> simp_all

/-- C1 — amended, witness. -/
theorem C1_amended_witness :
    (loadData sampleGen offlineAssetsEnv).syncError =
      "Unable to load team assets. Showing local cache." ∧
    (loadData sampleGen offlineAssetsEnv).assets =
      some (normalizeStoredAssets sampleGen sampleAssetsJson) ∧
    loadTextData sampleGen offlineTextEnv =
      { groups := none, sections := none, items := none
        syncError := "Unable to load team text items. Please refresh."
        cacheWrittenGroups := none, cacheWrittenSections := none
        cacheWrittenItems := none } := by
  obtain ⟨hA, hT⟩ := C1_amended sampleGen offlineAssetsEnv offlineTextEnv
  have h1 := hA rfl (by decide) rfl
  exact ⟨h1.1, (h1.2 sampleAssetsJson rfl (by decide)).1,
    hT rfl (by decide) (Or.inr (Or.inr rfl))⟩

/-- C6 — counterexample. Reviewing an asset with the action equal to its
current status still appends a STATUS_CHANGED entry (`handleReviewAction`
has no "status differs" guard), so a STATUS_CHANGED entry is *not*
appended only when the new status differs. -/
theorem C6_counterexample :
    sampleAsset.status = .APPROVED ∧
    ((handleReviewActionUpdate [sampleAsset] "a1" .APPROVED ""
        "reviewer@example.com" "2026-01-02T00:00:00.000Z" "act-1").2.map
      (fun e => (e.action, e.fromStatus, e.toStatus))) =
      [(.STATUS_CHANGED, some .APPROVED, some .APPROVED)] := by
  exact ⟨rfl, by decide⟩

/-- Mapping only the payload of an indexed enumeration ignores the
indices (helper for the activity-entry shape lemmas). -/
theorem enumFrom_map_snd_comp {α β : Type} (f : α → β) :
    ∀ (l : List α) (n : Nat), (l.enumFrom n).map (fun p => f p.2) = l.map f := by
  intro l
  induction l with
  | nil => intro n; rfl
  | cons x xs ih =>
    intro n
    simp only [List.enumFrom, List.map_cons]
    rw [ih]

/-- `enum` specialization of `enumFrom_map_snd_comp`. -/
theorem enum_map_snd_comp {α β : Type} (l : List α) (f : α → β) :
    l.enum.map (fun p => f p.2) = l.map f :=
  enumFrom_map_snd_comp f l 0

/-- C6 — amended. The text-editor save appends a STATUS_CHANGED entry
only when the resolved status differs from the item's previous status,
with `fromStatus`/`toStatus` equal to the transition. The asset review
action and the bulk text status apply, however, append a STATUS_CHANGED
entry on *every* invocation — even when the status is unchanged — always
with `fromStatus` the record's previous status and `toStatus` the
requested status. -/
theorem C6_amended :
    ∀ (assets : List UiAsset) (assetId : String) (act : AssetStatus)
      (notes actor now fid : String) (a : UiAsset)
      (items : List TextItem) (ids : List String) (status : AssetStatus)
      (reviewNotes : String) (fids : Nat → String)
      (sectionsList : List TextSection) (eid : String) (draft : TextDraft)
      (isRev : Bool) (ex : TextItem),
      (assets.find? (fun x => x.id = assetId) = some a →
        (handleReviewActionUpdate assets assetId act notes actor now fid).2.map
            (fun e => (e.action, e.fromStatus, e.toStatus)) =
          [(.STATUS_CHANGED, some a.status, some act)]) ∧
      (items.filter (fun i => ids.contains i.id) ≠ [] →
        (applyTextStatusUpdate items ids status reviewNotes actor now fids).2.1.map
            (fun e => (e.action, e.subjectId, e.fromStatus, e.toStatus)) =
          (items.filter (fun i => ids.contains i.id)).map
            (fun i => (.STATUS_CHANGED, i.id, some i.status, some status))) ∧
      (items.find? (fun i => i.id = eid) = some ex →
        ¬(jsTrim draft.title = "" ∧ jsTrim draft.body = "") →
        ¬(((if isRev then draft.status else .TO_REVIEW) = .HOLD ∨
            (if isRev then draft.status else .TO_REVIEW) = .REJECTED) ∧
          (if isRev then jsTrim draft.reviewNotes else "") = "") →
        ∃ items2 entries,
          handleSaveTextEdit items sectionsList eid draft isRev actor now fid =
            some (items2, entries) ∧
          (ex.status = (if isRev then draft.status else .TO_REVIEW) → entries = []) ∧
          (ex.status ≠ (if isRev then draft.status else .TO_REVIEW) →
            entries.map (fun e => (e.action, e.fromStatus, e.toStatus)) =
              [(.STATUS_CHANGED, some ex.status,
                some (if isRev then draft.status else .TO_REVIEW))])) := by
  intro assets assetId act notes actor now fid a items ids status reviewNotes fids
    sectionsList eid draft isRev ex
  refine ⟨?_, ?_, ?_⟩
  · intro hfind
    simp [handleReviewActionUpdate, hfind, mkStatusChangedEntry]
  · intro hne
    have hlen : (items.filter (fun i => ids.contains i.id)).length ≠ 0 := by
      simpa [List.length_eq_zero] using hne
    simp only [applyTextStatusUpdate]
    rw [if_neg (by simpa [List.length_map] using hlen)]
    simp only [List.map_map]
    exact enum_map_snd_comp (items.filter (fun i => ids.contains i.id))
      (fun i => (ActivityAction.STATUS_CHANGED, i.id, some i.status, some status))
  · intro hfind hv1 hv2
    simp only [handleSaveTextEdit]
    rw [if_neg (by
      simp only [Bool.and_eq_true, decide_eq_true_eq]
      exact fun h => hv1 ⟨h.1, h.2⟩)]
    rw [if_neg (by
      simp only [Bool.and_eq_true, Bool.or_eq_true, decide_eq_true_eq]
      exact fun h => hv2 ⟨h.1, h.2⟩)]
    refine ⟨_, _, rfl, ?_, ?_⟩
    · intro heq
      rw [hfind]
      simp [heq]
    · intro hneq
      rw [hfind]
      simp only [ne_eq, hneq, not_false_eq_true, if_pos, if_neg]
      simp [mkStatusChangedEntry, hneq]

/-- C6 — amended, witness. -/
theorem C6_amended_witness :
    ((handleReviewActionUpdate [sampleAsset] "a1" .HOLD "fix timing" "rev" "T1"
        "id1").2.map (fun e => (e.action, e.fromStatus, e.toStatus))) =
      [(.STATUS_CHANGED, some .APPROVED, some .HOLD)] ∧
    ((applyTextStatusUpdate [sampleTextItem] ["t1"] .APPROVED "" "rev" "T1"
        (fun _ => "id")).2.1.map
      (fun e => (e.action, e.subjectId, e.fromStatus, e.toStatus))) =
      [(.STATUS_CHANGED, "t1", some .APPROVED, some .APPROVED)] ∧
    ((handleSaveTextEdit [sampleTextItem] [] "t1"
        ⟨"Hello", "World", "Idea", "", .HOLD, "needs work", "", ""⟩ true "rev" "T1"
        "id1").map (fun p => p.2.map (fun e => (e.action, e.fromStatus, e.toStatus)))) =
      some [(.STATUS_CHANGED, some .APPROVED, some .HOLD)] := by
  obtain ⟨h1, h2, h3⟩ := C6_amended [sampleAsset] "a1" .HOLD "fix timing" "rev" "T1"
    "id1" sampleAsset [sampleTextItem] ["t1"] .APPROVED "" (fun _ => "id") [] "t1"
    ⟨"Hello", "World", "Idea", "", .HOLD, "needs work", "", ""⟩ true sampleTextItem
  refine ⟨h1 rfl, h2 (by decide), ?_⟩
  obtain ⟨i2, es, heq, -, hne⟩ := h3 rfl (by decide) (by decide)
  rw [heq]
  exact congrArg _ (hne (by decide))

/-- C7 — cascading delete. Deleting an existing text group removes the
group and exactly its member sections, and clears both `groupId` and
`sectionId` on exactly its member items, leaving every other group,
section and item unchanged (same count of items, membership preserved);
afterwards no item references the deleted group. Deleting an existing
section removes only that section and clears only `sectionId` on its
member items — per-position `groupId` is untouched. -/
theorem C7_cascading_delete :
    ∀ (groups : List TextGroup) (sections : List TextSection) (items : List TextItem)
      (gid sid : String) (grp : TextGroup) (sec : TextSection),
      (groups.find? (fun x => x.id = gid) = some grp →
        handleDeleteGroupUpdate groups sections items gid true =
          some (groups.filter (fun x => x.id ≠ gid),
                sections.filter (fun s => s.groupId ≠ gid),
                items.map (fun i =>
                  if i.groupId = some gid then
                    { i with groupId := none, sectionId := none } else i)) ∧
        (∀ x, x ∈ groups.filter (fun y => y.id ≠ gid) ↔ x ∈ groups ∧ x.id ≠ gid) ∧
        (∀ s, s ∈ sections.filter (fun y => y.groupId ≠ gid) ↔
          s ∈ sections ∧ s.groupId ≠ gid) ∧
        (sections.filter (fun y => y.groupId ≠ gid)).length +
          (sections.filter (fun y => y.groupId = gid)).length = sections.length ∧
        (items.map (fun i =>
          if i.groupId = some gid then
            { i with groupId := none, sectionId := none } else i)).length = items.length ∧
        (∀ i ∈ items, i.groupId = some gid →
          ({ i with groupId := none, sectionId := none } : TextItem) ∈
            items.map (fun i2 =>
              if i2.groupId = some gid then
                { i2 with groupId := none, sectionId := none } else i2)) ∧
        (∀ i ∈ items, i.groupId ≠ some gid →
          i ∈ items.map (fun i2 =>
            if i2.groupId = some gid then
              { i2 with groupId := none, sectionId := none } else i2)) ∧
        (∀ j ∈ items.map (fun i2 =>
            if i2.groupId = some gid then
              { i2 with groupId := none, sectionId := none } else i2),
          j.groupId ≠ some gid)) ∧
      (sections.find? (fun x => x.id = sid) = some sec →
        handleDeleteSectionUpdate sections items sid true =
          some (sections.filter (fun s => s.id ≠ sid),
                items.map (fun i =>
                  if i.sectionId = some sid then { i with sectionId := none } else i)) ∧
        (∀ s, s ∈ sections.filter (fun y => y.id ≠ sid) ↔ s ∈ sections ∧ s.id ≠ sid) ∧
        (items.map (fun i =>
          if i.sectionId = some sid then { i with sectionId := none } else i)).length =
            items.length ∧
        (∀ k, ((items.map (fun i =>
            if i.sectionId = some sid then { i with sectionId := none } else i)).get? k).map
              (fun x => x.groupId) = (items.get? k).map (fun x => x.groupId)) ∧
        (∀ i ∈ items, i.sectionId = some sid →
          ({ i with sectionId := none } : TextItem) ∈
            items.map (fun i2 =>
              if i2.sectionId = some sid then { i2 with sectionId := none } else i2)) ∧
        (∀ i ∈ items, i.sectionId ≠ some sid →
          i ∈ items.map (fun i2 =>
            if i2.sectionId = some sid then { i2 with sectionId := none } else i2)) ∧
        (∀ j ∈ items.map (fun i2 =>
            if i2.sectionId = some sid then { i2 with sectionId := none } else i2),
          j.sectionId ≠ some sid)) := by
  intro groups sections items gid sid grp sec
  constructor
  · intro hfind
    refine ⟨by simp [handleDeleteGroupUpdate, hfind], ?_, ?_, ?_, by simp, ?_, ?_, ?_⟩
    · intro x
      simp [List.mem_filter]
    · intro s
      simp [List.mem_filter]
    · have h := List.length_eq_length_filter_add
        (l := sections) (fun y => decide (y.groupId = gid))
      have hco : (fun (y : TextSection) => !(decide (y.groupId = gid))) =
          (fun (y : TextSection) => decide (y.groupId ≠ gid)) := by
        funext y
        by_cases hy : y.groupId = gid <;> simp [hy]
      rw [hco] at h
      omega
    · intro i hi hgid
      exact List.mem_map.mpr ⟨i, hi, by simp [hgid]⟩
    · intro i hi hgid
      exact List.mem_map.mpr ⟨i, hi, by simp [hgid]⟩
    · intro j hj
      rcases List.mem_map.mp hj with ⟨i, hi, rfl⟩
      by_cases h : i.groupId = some gid <;> simp [h]
  · intro hfind
    refine ⟨by simp [handleDeleteSectionUpdate, hfind], ?_, by simp, ?_, ?_, ?_, ?_⟩
    · intro s
      simp [List.mem_filter]
    · intro k
      rw [List.get?_map]
      cases items.get? k with
      | none => rfl
      | some i =>
        by_cases h : i.sectionId = some sid <;> simp [h]
    · intro i hi hsid
      exact List.mem_map.mpr ⟨i, hi, by simp [hsid]⟩
    · intro i hi hsid
      exact List.mem_map.mpr ⟨i, hi, by simp [hsid]⟩
    · intro j hj
      rcases List.mem_map.mp hj with ⟨i, hi, rfl⟩
      by_cases h : i.sectionId = some sid <;> simp [h]

/-- C7 — witness. -/
theorem C7_cascading_delete_witness :
    handleDeleteGroupUpdate [sampleGroup, otherGroup] [sampleSection, otherSection]
        [sampleTextItem, otherTextItem] "g1" true =
      some ([otherGroup], [otherSection],
        [{ sampleTextItem with groupId := none, sectionId := none }, otherTextItem]) ∧
    handleDeleteSectionUpdate [sampleSection, otherSection]
        [sampleTextItem, otherTextItem] "s1" true =
      some ([otherSection],
        [{ sampleTextItem with sectionId := none }, otherTextItem]) := by
  obtain ⟨hg, hs⟩ := C7_cascading_delete [sampleGroup, otherGroup]
    [sampleSection, otherSection] [sampleTextItem, otherTextItem] "g1" "s1"
    sampleGroup sampleSection
  constructor
  · rw [(hg rfl).1]
    decide
  · rw [(hs rfl).1]
    decide

/-- A surviving asset record always carries a non-empty `eventId` (the
normalizer discards records with a missing/empty event id). -/
theorem normalizeAssetElem_eventId {g : Gen} {raw : JVal} {a : UiAsset}
    (h : normalizeAssetElem g raw = some a) : a.eventId ≠ "" := by
  simp only [normalizeAssetElem] at h
  split at h
  · simp at h
  · split at h
    · split at h
      · simp at h
      · injection h with h
        subst h
        simp_all
    · simp at h

/-- A surviving text item always has a non-empty title (the raw trimmed
title, the first body line, or the `"Untitled idea"` default). -/
theorem normalizeTextItemElem_title {g : Gen} {raw : JVal} {t : TextItem}
    (h : normalizeTextItemElem g raw = some t) : t.title ≠ "" := by
  simp only [normalizeTextItemElem] at h
  split at h
  · simp at h
  · split at h
    · simp at h
    · split at h
      · simp at h
      · injection h with h
        subst h
        simp only
        split
        · simp_all
        · split <;> simp_all

/-- Membership in the normalized asset output comes from a surviving raw
element. -/
theorem mem_normalizeStoredAssets {g : Gen} {xs : List JVal} {a : UiAsset}
    (h : a ∈ normalizeStoredAssets g (.jarr xs)) :
    ∃ raw ∈ xs, normalizeAssetElem g raw = some a := by
  simp only [normalizeStoredAssets] at h
  rw [List.reduceOption_mem_iff] at h
  rcases List.mem_map.mp h with ⟨raw, hraw, heq⟩
  exact ⟨raw, hraw, heq⟩

/-- Membership in the normalized text-item output comes from a surviving
raw element. -/
theorem mem_normalizeStoredTextItems {g : Gen} {xs : List JVal} {t : TextItem}
    (h : t ∈ normalizeStoredTextItems g (.jarr xs)) :
    ∃ raw ∈ xs, normalizeTextItemElem g raw = some t := by
  simp only [normalizeStoredTextItems] at h
  rw [List.reduceOption_mem_iff] at h
  rcases List.mem_map.mp h with ⟨raw, hraw, heq⟩
  exact ⟨raw, hraw, heq⟩

/-- C8 — normalizer discard rule. Non-array input yields the empty
sequence; on arrays the output is the in-order per-element normalization
with discarded elements dropped (`filterMap`, which preserves input
order), so it is never longer than the input; every surviving asset has
a status in the 4-value enum, a tone in the 6-tone enum plus ALL, and a
non-empty `eventId`; every surviving text item has a non-empty title or
body. Invalid elements are dropped, never defaulted. -/
theorem C8_normalizer_discard :
    ∀ (g : Gen) (v : JVal) (xs : List JVal),
      ((∀ ys, v ≠ .jarr ys) →
        normalizeStoredAssets g v = [] ∧ normalizeStoredTextItems g v = []) ∧
      normalizeStoredAssets g (.jarr xs) = xs.filterMap (normalizeAssetElem g) ∧
      (normalizeStoredAssets g (.jarr xs)).length ≤ xs.length ∧
      normalizeStoredTextItems g (.jarr xs) = xs.filterMap (normalizeTextItemElem g) ∧
      (normalizeStoredTextItems g (.jarr xs)).length ≤ xs.length ∧
      (∀ a ∈ normalizeStoredAssets g (.jarr xs),
        a.status ∈ ASSET_STATUSES ∧
        a.skinTone ∈ [SkinTone.FAIR, .LIGHT, .OLIVE, .MEDIUM_BROWN, .DARK_BROWN,
          .DEEP, .ALL] ∧
        a.eventId ≠ "") ∧
      (∀ t ∈ normalizeStoredTextItems g (.jarr xs), t.title ≠ "" ∨ t.body ≠ "") := by
  intro g v xs
  refine ⟨?_, ?_, ?_, ?_, ?_, ?_, ?_⟩
  · intro hne
    cases v <;> first
      | exact ⟨rfl, rfl⟩
      | exact absurd rfl (hne _)
  · simp only [normalizeStoredAssets, List.reduceOption, List.filterMap_map]
    rfl
  · calc (normalizeStoredAssets g (.jarr xs)).length
        ≤ (xs.map (normalizeAssetElem g)).length :=
          List.reduceOption_length_le _
      _ = xs.length := List.length_map _ _
  · simp only [normalizeStoredTextItems, List.reduceOption, List.filterMap_map]
    rfl
  · calc (normalizeStoredTextItems g (.jarr xs)).length
        ≤ (xs.map (normalizeTextItemElem g)).length :=
          List.reduceOption_length_le _
      _ = xs.length := List.length_map _ _
  · intro a ha
    obtain ⟨raw, -, heq⟩ := mem_normalizeStoredAssets ha
    refine ⟨?_, ?_, normalizeAssetElem_eventId heq⟩
    · cases a.status <;> simp [ASSET_STATUSES]
    · cases a.skinTone <;> simp
  · intro t ht
    obtain ⟨raw, -, heq⟩ := mem_normalizeStoredTextItems ht
    exact Or.inl (normalizeTextItemElem_title heq)

/-- C8 — witness. -/
theorem C8_normalizer_discard_witness :
    normalizeStoredAssets sampleGen (.jstr "junk") = [] ∧
    (normalizeStoredAssets sampleGen (.jarr [.jnull, .jobj [("id", .jstr "a9"),
        ("title", .jstr "Cached"), ("eventId", .jstr "christmas"),
        ("skinTone", .jstr "ALL"), ("status", .jstr "APPROVED")]])).length ≤ 2 := by
  obtain ⟨hna, -, hlen, -⟩ := C8_normalizer_discard sampleGen (.jstr "junk")
    [.jnull, .jobj [("id", .jstr "a9"), ("title", .jstr "Cached"),
      ("eventId", .jstr "christmas"), ("skinTone", .jstr "ALL"),
      ("status", .jstr "APPROVED")]]
  exact ⟨(hna (by intro ys h; cases h)).1, hlen⟩

/-- C9 — normalizer legacy-compat. For every asset record (all field
values universally quantified), the snake_case variant with legacy enum
spellings normalizes to exactly the same canonical record, field for
field, as the canonical camelCase form, whenever the legacy and
canonical status/tone spellings resolve to the same canonical enum
values through the legacy-compatibility tables. -/
theorem C9_legacy_compat :
    ∀ (g : Gen) (id title eventId uploader reviewer createdAt updatedAt
        notesR notesI previewColor mediaUrl mediaType mediaStorage fileName : String)
      (version fileSize : Int) (sL sC tL tC : String) (st : AssetStatus) (tn : SkinTone),
      LEGACY_STATUS_MAP.lookup sL = some st →
      LEGACY_STATUS_MAP.lookup sC = some st →
      LEGACY_TONE_MAP.lookup tL = some tn →
      LEGACY_TONE_MAP.lookup tC = some tn →
      normalizeAssetElem g (legacyAssetObj id title eventId tL sL uploader reviewer
        createdAt updatedAt version notesR notesI previewColor mediaUrl mediaType
        mediaStorage fileName fileSize) =
      normalizeAssetElem g (canonicalAssetObj id title eventId tC sC uploader reviewer
        createdAt updatedAt version notesR notesI previewColor mediaUrl mediaType
        mediaStorage fileName fileSize) ∧
      normalizeStoredAssets g (.jarr [legacyAssetObj id title eventId tL sL uploader
        reviewer createdAt updatedAt version notesR notesI previewColor mediaUrl
        mediaType mediaStorage fileName fileSize]) =
      normalizeStoredAssets g (.jarr [canonicalAssetObj id title eventId tC sC uploader
        reviewer createdAt updatedAt version notesR notesI previewColor mediaUrl
        mediaType mediaStorage fileName fileSize]) := by
  intro g id title eventId uploader reviewer createdAt updatedAt notesR notesI
    previewColor mediaUrl mediaType mediaStorage fileName version fileSize
    sL sC tL tC st tn h1 h2 h3 h4
  have helem : normalizeAssetElem g (legacyAssetObj id title eventId tL sL uploader
      reviewer createdAt updatedAt version notesR notesI previewColor mediaUrl
      mediaType mediaStorage fileName fileSize) =
      normalizeAssetElem g (canonicalAssetObj id title eventId tC sC uploader reviewer
      createdAt updatedAt version notesR notesI previewColor mediaUrl mediaType
      mediaStorage fileName fileSize) := by
    have hsL : normalizeStatus ((legacyAssetObj id title eventId tL sL uploader
        reviewer createdAt updatedAt version notesR notesI previewColor mediaUrl
        mediaType mediaStorage fileName fileSize).get? "status") = some st := h1
    have hsC : normalizeStatus ((canonicalAssetObj id title eventId tC sC uploader
        reviewer createdAt updatedAt version notesR notesI previewColor mediaUrl
        mediaType mediaStorage fileName fileSize).get? "status") = some st := h2
    have htL : normalizeTone ((legacyAssetObj id title eventId tL sL uploader
        reviewer createdAt updatedAt version notesR notesI previewColor mediaUrl
        mediaType mediaStorage fileName fileSize).nn2 "skinTone" "skin_tone") =
        some tn := h3
    have htC : normalizeTone ((canonicalAssetObj id title eventId tC sC uploader
        reviewer createdAt updatedAt version notesR notesI previewColor mediaUrl
        mediaType mediaStorage fileName fileSize).nn2 "skinTone" "skin_tone") =
        some tn := h4
    simp only [normalizeAssetElem]
    rw [hsL, hsC, htL, htC]
    rfl
  refine ⟨helem, ?_⟩
  simp [normalizeStoredAssets, helem]

/-- C9 — witness: legacy `"Approved"`/`"dark-brown"` spellings against
the canonical `"APPROVED"`/`"DARK_BROWN"` ones. -/
theorem C9_legacy_compat_witness :
    normalizeAssetElem sampleGen (legacyAssetObj "a1" "Launch" "christmas"
        "dark-brown" "Approved" "up" "rev" "2026-01-01" "2026-01-02" 1 "" "" "#abc"
        "https://m" "image/gif" "object" "f.gif" 10) =
      normalizeAssetElem sampleGen (canonicalAssetObj "a1" "Launch" "christmas"
        "DARK_BROWN" "APPROVED" "up" "rev" "2026-01-01" "2026-01-02" 1 "" "" "#abc"
        "https://m" "image/gif" "object" "f.gif" 10) := by
  exact (C9_legacy_compat sampleGen "a1" "Launch" "christmas" "up" "rev" "2026-01-01"
    "2026-01-02" "" "" "#abc" "https://m" "image/gif" "object" "f.gif" 1 10
    "Approved" "APPROVED" "dark-brown" "DARK_BROWN" .APPROVED .DARK_BROWN
    rfl rfl rfl rfl).1

/-- C10 — batch-upsert guards. For each of the six batch POST endpoints:
a request without a valid bearer token yields 401 before any database
write, and an authenticated request whose wrapped record array is
missing, non-array, or empty yields 400 before any database write; in
both cases no upsert is attempted (`upserted = none`), leaving the
stored collection unchanged. -/
theorem C10_batch_post_guards :
    ∀ (g : Gen) (req : ApiRequest) (dbOk : Bool),
      (req.user = none →
        postAssets req dbOk = ⟨401, none⟩ ∧
        postEvents g req dbOk = ⟨401, none⟩ ∧
        postTextItems g req dbOk = ⟨401, none⟩ ∧
        postTextGroups g req dbOk = ⟨401, none⟩ ∧
        postTextSections g req dbOk = ⟨401, none⟩ ∧
        postActivity req dbOk = ⟨401, none⟩) ∧
      (∀ u, req.user = some u →
        (extractRecords req.body "assets" = [] → postAssets req dbOk = ⟨400, none⟩) ∧
        (extractRecords req.body "events" = [] → postEvents g req dbOk = ⟨400, none⟩) ∧
        (extractRecords req.body "items" = [] → postTextItems g req dbOk = ⟨400, none⟩) ∧
        (extractRecords req.body "groups" = [] →
          postTextGroups g req dbOk = ⟨400, none⟩) ∧
        (extractRecords req.body "sections" = [] →
          postTextSections g req dbOk = ⟨400, none⟩) ∧
        (extractRecords req.body "activity" = [] →
          postActivity req dbOk = ⟨400, none⟩)) := by
  intro g req dbOk
  constructor
  · intro h
    refine ⟨?_, ?_, ?_, ?_, ?_, ?_⟩ <;>
      simp [postAssets, postEvents, postTextItems, postTextGroups, postTextSections,
        postActivity, batchUpsertPost, h]
  · intro u hu
    refine ⟨?_, ?_, ?_, ?_, ?_, ?_⟩ <;> intro he <;>
      simp [postAssets, postEvents, postTextItems, postTextGroups, postTextSections,
        postActivity, batchUpsertPost, hu, he]

/-- C10 — witness: an unauthenticated request and an authenticated
request with a non-array wrapper. -/
theorem C10_batch_post_guards_witness :
    postAssets ⟨none, some (.jobj [("assets", .jarr [.jobj []])])⟩ true = ⟨401, none⟩ ∧
    postAssets ⟨some "u1", some (.jobj [("assets", .jstr "nope")])⟩ true =
      ⟨400, none⟩ ∧
    postActivity ⟨some "u1", some (.jobj [])⟩ true = ⟨400, none⟩ := by
  obtain ⟨h401, -⟩ := C10_batch_post_guards sampleGen
    ⟨none, some (.jobj [("assets", .jarr [.jobj []])])⟩ true
  obtain ⟨-, h400⟩ := C10_batch_post_guards sampleGen
    ⟨some "u1", some (.jobj [("assets", .jstr "nope")])⟩ true
  obtain ⟨-, h400b⟩ := C10_batch_post_guards sampleGen
    ⟨some "u1", some (.jobj [])⟩ true
  exact ⟨(h401 rfl).1, ((h400 "u1" rfl).1 rfl),
    ((h400b "u1" rfl).2.2.2.2.2 rfl)⟩
